import Mathlib

/-!
Shallow embedding of `GradientInfill.py` (gradient-infill G-code post-processor)
and verification of the frozen claims about it.

Modelling conventions:
* Python floats are modelled as exact real numbers (`ℝ`); the spec speaks
  "within floating rounding", so exact-real semantics is the intended
  idealisation.  `round(x, n)` is modelled as exact half-even rounding at
  `n` decimal digits, and `str()` of the rounded float as the plain decimal
  rendering (trailing zeros stripped, `.0` for integral values).
* Python exceptions (`ZeroDivisionError` on float division by zero,
  `ValueError` from `float(...)` and from `min` of an empty sequence,
  `SyntaxError` raised by `getXY`, `UnboundLocalError` on reading a local
  variable before its first assignment) are modelled with `Except Err`.
* Text is modelled as `List Char` (`Str`), with structural implementations
  of the string operations the source uses (`split` on a single-character
  separator, containment, prefix tests, `list.index`), so that concrete
  runs evaluate inside the kernel.
* Numeric text fields are parsed to scaled decimals `(mantissa : ℤ,
  fractional digits : ℕ)` by computable functions and cast into `ℝ` at the
  point of use, mirroring `float(...)` exactly on the decimal strings the
  script consumes.
-/

namespace GradientInfill

/-- Text, as a list of characters. -/
abbrev Str := List Char

/-- Characters of a string literal. -/
def str (s : String) : Str := s.toList

/-- Error conditions of the Python source, see module docstring. -/
inductive Err where
  | syntaxError
  | valueError
  | zeroDivision
  | emptyMin
  | unboundLocal
deriving DecidableEq

instance exceptDecEq {ε α : Type} [DecidableEq ε] [DecidableEq α] :
    DecidableEq (Except ε α) := fun a b =>
  match a, b with
  | .ok x, .ok y => if h : x = y then .isTrue (by rw [h]) else .isFalse (by simp [h])
  | .error x, .error y => if h : x = y then .isTrue (by rw [h]) else .isFalse (by simp [h])
  | .ok _, .error _ => .isFalse (by simp)
  | .error _, .ok _ => .isFalse (by simp)

/-- Planar point, `Point2D = namedtuple('Point2D', 'x y')`. -/
structure Point2D where
  x : ℝ
  y : ℝ

/-- Oriented finite segment, `Segment = namedtuple('Segment', 'point1 point2')`. -/
structure Segment where
  point1 : Point2D
  point2 : Point2D

/-- Section state of the scanner, `class Section(Enum)`. -/
inductive Sect where
  | NOTHING
  | INNER_WALL
  | INFILL
deriving DecidableEq

/-! ## Geometry kernel -/

open Classical in
/-- Model of `dist(segment, point)` (point-to-finite-segment distance).
The Python source divides by `float(norm)` with no guard; when
`norm == 0` (degenerate zero-length segment) that float division raises
`ZeroDivisionError`, modelled here by the explicit `norm = 0` test. -/
noncomputable def dist (segment : Segment) (point : Point2D) : Except Err ℝ :=
  let px := segment.point2.x - segment.point1.x
  let py := segment.point2.y - segment.point1.y
  let norm := px * px + py * py
  if norm = 0 then .error .zeroDivision else
    let u0 := ((point.x - segment.point1.x) * px + (point.y - segment.point1.y) * py) / norm
    let u := if u0 > 1 then 1 else if u0 < 0 then 0 else u0
    let x := segment.point1.x + u * px
    let y := segment.point1.y + u * py
    let dx := x - point.x
    let dy := y - point.y
    .ok (Real.sqrt (dx * dx + dy * dy))

/-- Model of `get_points_distance(point1, point2)` (Euclidean distance). -/
noncomputable def get_points_distance (point1 point2 : Point2D) : ℝ :=
  Real.sqrt ((point1.x - point2.x) ^ 2 + (point1.y - point2.y) ^ 2)

/-- Left-to-right minimum of `dist` over a list of segments; the first
failing `dist` aborts, and an empty list is the Python
`ValueError: min() arg is an empty sequence`. -/
noncomputable def minOverSegments (middlePoint : Point2D) : List Segment → Except Err ℝ
  | [] => .error .emptyMin
  | [s] => dist s middlePoint
  | s :: s2 :: rest => do
      let d ← dist s middlePoint
      let m ← minOverSegments middlePoint (s2 :: rest)
      .ok (min d m)

/-- Model of `min_distance_from_segment(segment, segments)`: minimum distance
from the midpoint of `segment` to the segments of the list. -/
noncomputable def min_distance_from_segment (segment : Segment) (segments : List Segment) :
    Except Err ℝ :=
  minOverSegments
    ⟨(segment.point1.x + segment.point2.x) / 2, (segment.point1.y + segment.point2.y) / 2⟩
    segments

/-! ## Flow mapper -/

/-- Model of `mapRange(a, b, s)`: linear interpolation
`b1 + (s - a1) * (b2 - b1) / (a2 - a1)`. -/
noncomputable def mapRange (a : ℝ × ℝ) (b : ℝ × ℝ) (s : ℝ) : ℝ :=
  b.1 + ((s - a.1) * (b.2 - b.1) / (a.2 - a.1))

/-! ## Numeric text fields -/

/-- Scaled decimal: mantissa and number of fractional digits; the value is
`mantissa / 10 ^ digits`.  The result type of the `float(...)` model. -/
abbrev Dec := ℤ × ℕ

/-- Real value of a scaled decimal. -/
noncomputable def decToR (p : Dec) : ℝ := (p.1 : ℝ) / 10 ^ p.2

/-- Numeric value of a list of decimal digit characters. -/
def digitsVal (l : Str) : ℕ :=
  l.foldl (fun acc c => 10 * acc + (c.toNat - 48)) 0

/-- The maximal match of the regex tail `\d*\.?\d*` at the head of `l`
(the capture group of `X(\d*\.?\d*)` and friends). -/
def numCapture (l : Str) : Str :=
  let d1 := l.takeWhile Char.isDigit
  let r1 := l.dropWhile Char.isDigit
  match r1 with
  | '.' :: r2 => d1 ++ '.' :: r2.takeWhile Char.isDigit
  | _ => d1

/-- Model of `re.search(r"C(\d*\.?\d*)", line)` for a literal character `C`:
the capture group at the first occurrence of `C`, or `none` when `C` does
not occur in the line. -/
def searchNum (c : Char) : Str → Option Str
  | [] => none
  | a :: rest => if a = c then some (numCapture rest) else searchNum c rest

/-- Model of Python `float(s)` on unsigned plain decimals (`\d*\.?\d*`):
fails on an empty digit string or a bare dot. -/
def decVal (l : Str) : Option Dec :=
  let d1 := l.takeWhile Char.isDigit
  let r1 := l.dropWhile Char.isDigit
  match r1 with
  | [] => if d1.isEmpty then none else some ((digitsVal d1 : ℤ), 0)
  | '.' :: d2 =>
      if d2.all Char.isDigit then
        if d1.isEmpty && d2.isEmpty then none
        else some ((digitsVal d1 * 10 ^ d2.length + digitsVal d2 : ℕ), d2.length)
      else none
  | _ => none

/-- Model of Python `float(s)` for the strings the script feeds it
(`element[1:]` of a G-code field): optional sign followed by a plain
decimal. -/
def pyFloat (s : Str) : Option Dec :=
  match s with
  | '-' :: rest => (decVal rest).map (fun p => (-p.1, p.2))
  | '+' :: rest => decVal rest
  | l => decVal l

/-- Computable core of `getXY(currentLine)`: the `X` and `Y` captures parsed
to scaled decimals.  `SyntaxError` when either letter is absent (the regex
then finds no match), `ValueError` when a capture is not a valid float. -/
def getXYq (line : Str) : Except Err (Dec × Dec) :=
  match searchNum 'X' line, searchNum 'Y' line with
  | some ex, some ey =>
      match decVal ex with
      | none => .error .valueError
      | some qx =>
          match decVal ey with
          | none => .error .valueError
          | some qy => .ok (qx, qy)
  | _, _ => .error .syntaxError

/-- Model of `getXY(currentLine) -> Point2D`. -/
noncomputable def getXY (line : Str) : Except Err Point2D :=
  (getXYq line).map (fun p => ⟨decToR p.1, decToR p.2⟩)

/-! ## Output formatting -/

open Classical in
/-- Exact half-to-even rounding of a real number to an integer (the tie rule
of Python `round`). -/
noncomputable def roundHalfEven (x : ℝ) : ℤ :=
  if x - ⌊x⌋ < 1 / 2 then ⌊x⌋
  else if x - ⌊x⌋ > 1 / 2 then ⌊x⌋ + 1
  else if Even ⌊x⌋ then ⌊x⌋ else ⌊x⌋ + 1

/-- Model of `round(x, n)` as the scaled integer `round(x * 10^n)`. -/
noncomputable def pyRound (x : ℝ) (n : ℕ) : ℤ := roundHalfEven (x * 10 ^ n)

/-- Pad a digit string on the left with zeros to length `n`. -/
def padZeros (n : ℕ) (l : Str) : Str :=
  List.replicate (n - l.length) '0' ++ l

/-- Strip trailing zero characters. -/
def stripZeros (l : Str) : Str :=
  (l.reverse.dropWhile (fun c => c = '0')).reverse

/-- Decimal rendering of the nonnegative scaled value `m / 10^n` the way
Python `str` prints a float: fractional part without trailing zeros, a
trailing `.0` for integral values. -/
def fmtScaledNat (m : ℕ) (n : ℕ) : Str :=
  let ip := m / 10 ^ n
  let fp := m % 10 ^ n
  let frac := stripZeros (padZeros n (Nat.repr fp).toList)
  (Nat.repr ip).toList ++ '.' :: (if frac.isEmpty then str ("0") else frac)

/-- Decimal rendering of the scaled value `k / 10^n`, with sign. -/
def fmtScaledInt (k : ℤ) (n : ℕ) : Str :=
  if k < 0 then '-' :: fmtScaledNat k.natAbs n else fmtScaledNat k.toNat n

/-- Model of `str(round(x, n))` for values in the plain-decimal printing
range of Python floats. -/
noncomputable def pyRoundStr (x : ℝ) (n : ℕ) : Str := fmtScaledInt (pyRound x n) n

/-- Model of `get_extrusion_command(x, y, extrusion)`:
`"G1 X{} Y{} E{}".format(round(x, 3), round(y, 3), round(extrusion, 5))`. -/
noncomputable def get_extrusion_command (x y extrusion : ℝ) : Str :=
  str ("G1 X") ++ pyRoundStr x 3 ++ str (" Y") ++ pyRoundStr y 3 ++
    str (" E") ++ pyRoundStr extrusion 5

/-! ## Generic text operations (Python semantics) -/

/-- Containment of one character sequence in another (Python `in` on
strings). -/
def seqSub : Str → Str → Bool
  | pat, [] => pat.isEmpty
  | pat, c :: rest => pat.isPrefixOf (c :: rest) || seqSub pat rest

/-- Model of Python `pat in line` for strings. -/
def inStr (pat : String) (line : Str) : Bool := seqSub (str pat) line

/-- Model of Python `s.split(sep)` for a single-character separator (the
source only splits on a single space and on a newline). -/
def splitChar (sep : Char) : Str → List Str
  | [] => [[]]
  | c :: rest =>
      let r := splitChar sep rest
      if c = sep then [] :: r
      else (c :: r.headD []) :: r.tail

/-- Model of Python `sep.join(chunks)` for a one-character separator. -/
def joinChar (sep : Char) : List Str → Str
  | [] => []
  | [l] => l
  | l :: l2 :: rest => l ++ sep :: joinChar sep (l2 :: rest)

/-! ## Line classifiers -/

/-- Model of `is_begin_layer_line`. -/
def is_begin_layer_line (line : Str) : Bool := (str (";LAYER:")).isPrefixOf line

/-- Model of `is_begin_inner_wall_line`. -/
def is_begin_inner_wall_line (line : Str) : Bool := (str (";TYPE:WALL-INNER")).isPrefixOf line

/-- Model of `is_end_inner_wall_line`. -/
def is_end_inner_wall_line (line : Str) : Bool := (str (";TYPE:WALL-OUTER")).isPrefixOf line

/-- Model of `is_begin_infill_segment_line`. -/
def is_begin_infill_segment_line (line : Str) : Bool := (str (";TYPE:FILL")).isPrefixOf line

/-- Model of `is_extrusion_line`. -/
def is_extrusion_line (line : Str) : Bool :=
  inStr ("G1") line && inStr (" X") line && inStr ("Y") line && inStr ("E") line

/-- Model of `mfill_mode(Mode)`: the cascade of reassignments of `iMode`. -/
def mfill_mode (Mode : Str) : ℕ :=
  let iMode := 0
  let iMode := if Mode = str ("grid") then 2 else iMode
  let iMode := if Mode = str ("lines") then 2 else iMode
  let iMode := if Mode = str ("triangles") then 2 else iMode
  let iMode := if Mode = str ("trihexagon") then 2 else iMode
  let iMode := if Mode = str ("cubic") then 2 else iMode
  let iMode := if Mode = str ("cubicsubdiv") then 2 else iMode
  let iMode := if Mode = str ("tetrahedral") then 2 else iMode
  let iMode := if Mode = str ("quarter_cubic") then 2 else iMode
  let iMode := if Mode = str ("concentric") then 0 else iMode
  let iMode := if Mode = str ("zigzag") then 2 else iMode
  let iMode := if Mode = str ("cross") then 0 else iMode
  let iMode := if Mode = str ("cross_3d") then 0 else iMode
  let iMode := if Mode = str ("gyroid") then 1 else iMode
  iMode

/-! ## Stream transformer state -/

/-- Per-extruder configuration resolved by the host (the values the source
reads at the top of `execute`), plus the infill topology computed by
`mfill_mode` (`2` = LINEAR, `1` = SMALL_SEGMENTS, `0` = passthrough). -/
structure Config where
  gradient_thickness : ℝ
  gradient_discretization : ℝ
  max_flow : ℝ
  min_flow : ℝ
  infill_type : ℕ

/-- Scanner state: the loop-carried locals of `execute`.  The two `Option`s
model Python locals that are unbound until their first assignment
(`perimeterSegments` until the first layer marker, `new_Line` until the
first infill speed line). -/
structure MState where
  currentSection : Sect
  lastPosition : Point2D
  perimeterSegments : Option (List Segment)
  new_Line : Option Str

/-- First index of an equal element (Python `list.index`), used by
`lines[lines.index(currentLine)] = ...` and `data[data.index(layer)] = ...`;
returns the length when the element is absent (unreachable in the model:
the looked-up element is always a member). -/
def idxOf (cur : Str) : List Str → ℕ
  | [] => 0
  | l :: rest => if l = cur then 0 else idxOf cur rest + 1

/-- Model of the source's in-place line replacement
`lines[lines.index(currentLine)] = new`: the slot of the FIRST
content-equal entry is overwritten. -/
def setByContent (lines : List Str) (cur new : Str) : List Str :=
  lines.set (idxOf cur lines) new

/-- Model of the `for element in splitLine: if "E" in element:
extrusionLength = float(element[1:])` scan: parse every `E` field in order
(first invalid one raises `ValueError`), keep the last value; `none` when
no element contains `E` (the local stays unbound). -/
def scanE : List Str → Except Err (Option Dec)
  | [] => .ok none
  | e :: rest =>
      if inStr ("E") e then
        match pyFloat e.tail with
        | none => .error .valueError
        | some v => do
            let r ← scanE rest
            .ok (some (r.getD v))
      else scanE rest

open Classical in
/-- Model of the LINEAR subdivision loop
(`for step in range(int(segmentSteps)): ...`): emits one command per step,
advancing `lastPosition` by `segmentDirection` each time; reads the
`new_Line` accumulator (unbound -> `UnboundLocalError`) after computing the
step's shortest distance, exactly as in the source.  Returns the final
position, the accumulated text and the list of emitted
(position, extrusion) pairs. -/
noncomputable def linearLoop (cfg : Config) (segs : List Segment) (share : ℝ) (dir : Point2D) :
    ℕ → Point2D → Option Str → Except Err (Point2D × Option Str × List (Point2D × ℝ))
  | 0, lp, acc => .ok (lp, acc, [])
  | n + 1, lp, acc => do
      let segmentEnd : Point2D := ⟨lp.x + dir.x, lp.y + dir.y⟩
      let d ← min_distance_from_segment ⟨lp, segmentEnd⟩ segs
      let segmentExtrusion :=
        if d < cfg.gradient_thickness then
          share * mapRange (0, cfg.gradient_thickness) (cfg.max_flow / 100, cfg.min_flow / 100) d
        else share * cfg.min_flow / 100
      match acc with
      | none => .error .unboundLocal
      | some s => do
          let (pf, accF, rest) ← linearLoop cfg segs share dir n segmentEnd
            (some (s ++ get_extrusion_command segmentEnd.x segmentEnd.y segmentExtrusion
              ++ str ("\n")))
          .ok (pf, accF, (segmentEnd, segmentExtrusion) :: rest)

noncomputable def linearShort (e : ℝ) (maxFlow : ℝ) : List Str → Str → Str
  | [], out => out
  | el :: rest, out =>
      if inStr ("E") el then
        linearShort e maxFlow rest (out ++ str ("E") ++ pyRoundStr (e * maxFlow / 100) 5)
      else linearShort e maxFlow rest (out ++ el ++ str (" "))

open Classical in
/-- Model of the `infill_type == 2` (LINEAR) body, lines 397-434 of the
source. -/
noncomputable def linearCase (cfg : Config) (st : MState) (lines : List Str) (cur : Str)
    (cp : Point2D) : Except Err (MState × List Str) := do
  let splitLine := splitChar ' ' cur
  let eOpt ← scanE splitLine
  let segmentLength := get_points_distance st.lastPosition cp
  let gdl := cfg.gradient_thickness / cfg.gradient_discretization
  if gdl = 0 then .error .zeroDivision else
  let segmentSteps := segmentLength / gdl
  match eOpt with
  | none => .error .unboundLocal
  | some eD =>
    let extrusionLength := decToR eD
    if segmentSteps = 0 then .error .zeroDivision else
    let share := extrusionLength / segmentSteps
    let dir : Point2D := ⟨(cp.x - st.lastPosition.x) / segmentLength * gdl,
                          (cp.y - st.lastPosition.y) / segmentLength * gdl⟩
    if 2 ≤ segmentSteps then do
      match st.perimeterSegments with
      | none => .error .unboundLocal
      | some segs => do
        let (pf, accOpt, _cmds) ←
          linearLoop cfg segs share dir (⌊segmentSteps⌋).toNat st.lastPosition st.new_Line
        match accOpt with
        | none => .error .unboundLocal
        | some acci =>
          let lr := get_points_distance pf cp / segmentLength
          let full := acci ++
            get_extrusion_command cp.x cp.y (lr * extrusionLength * cfg.max_flow / 100)
          .ok ({st with new_Line := some full, lastPosition := pf}, setByContent lines cur full)
    else
      .ok (st, setByContent lines cur (linearShort extrusionLength cfg.max_flow splitLine []))

open Classical in
/-- Model of the per-element rebuild of the SMALL_SEGMENTS branch
(lines 445-452 of the source): replaces each `E` field with the scaled
value, copies every other element verbatim followed by a space. -/
noncomputable def smallRebuild (multiplier : ℝ) : List Str → Str → Except Err Str
  | [], out => .ok out
  | e :: rest, out =>
      if inStr ("E") e then
        match pyFloat e.tail with
        | none => .error .valueError
        | some v =>
            smallRebuild multiplier rest (out ++ str ("E") ++ pyRoundStr (decToR v * multiplier) 5)
      else smallRebuild multiplier rest (out ++ e ++ str (" "))

open Classical in
/-- Model of the `infill_type == 1` (SMALL_SEGMENTS) body, lines 440-453 of
the source. -/
noncomputable def smallCase (cfg : Config) (st : MState) (lines : List Str) (cur : Str)
    (cp : Point2D) : Except Err (MState × List Str) := do
  match st.perimeterSegments with
  | none => .error .unboundLocal
  | some segs => do
    let d ← min_distance_from_segment ⟨st.lastPosition, cp⟩ segs
    match st.new_Line with
    | none => .error .unboundLocal
    | some base =>
      if d < cfg.gradient_thickness then do
        let out ← smallRebuild
          (mapRange (0, cfg.gradient_thickness) (cfg.max_flow / 100, cfg.min_flow / 100) d)
          (splitChar ' ' cur) base
        .ok (st, setByContent lines cur (out ++ str ("\n")))
      else .ok (st, lines)

open Classical in
/-- Model of the full extrusion-move body (lines 391-455 of the source):
parse the target, then run the LINEAR and SMALL_SEGMENTS branches guarded
by `infill_type`. -/
noncomputable def extrusionRewrite (cfg : Config) (st : MState) (lines : List Str) (cur : Str) :
    Except Err (MState × List Str) := do
  let cp ← getXY cur
  let p1 ← if cfg.infill_type = 2 then linearCase cfg st lines cur cp else pure (st, lines)
  if cfg.infill_type = 1 then smallCase cfg p1.1 p1.2 cur cp else pure p1

open Classical in
/-- Model of one iteration of the line loop of `execute`
(lines 363-461 of the source), processing the line at index `i` of the
current (possibly already partially mutated) line list. -/
noncomputable def stepLine (cfg : Config) (acc : MState × List Str) (i : ℕ) :
    Except Err (MState × List Str) := do
  let lines := acc.2
  let currentLine := lines.getD i []
  let st := acc.1
  let st := if is_begin_layer_line currentLine then
      {st with perimeterSegments := some []} else st
  let st := if is_begin_inner_wall_line currentLine then
      {st with currentSection := .INNER_WALL} else st
  let st ←
    if st.currentSection = .INNER_WALL ∧ is_extrusion_line currentLine then
      match st.perimeterSegments with
      | none => .error .unboundLocal
      | some segs => do
          let p ← getXY currentLine
          pure {st with perimeterSegments := some (segs ++ [⟨p, st.lastPosition⟩])}
    else pure st
  let st := if is_end_inner_wall_line currentLine then
      {st with currentSection := .NOTHING} else st
  if is_begin_infill_segment_line currentLine then
    pure ({st with currentSection := .INFILL}, lines)
  else do
    let stl ←
      if st.currentSection = .INFILL then do
        let st := if inStr ("F") currentLine ∧ inStr ("G1") currentLine then
            {st with
              new_Line := some (str ("G1 F") ++ ((searchNum 'F' currentLine).getD [])
                ++ str ("\n"))}
          else st
        let stl ←
          if inStr ("E") currentLine ∧ inStr ("G1") currentLine ∧
              inStr (" X") currentLine ∧ inStr ("Y") currentLine then
            extrusionRewrite cfg st lines currentLine
          else pure (st, lines)
        let st2 := if inStr (";") currentLine then
            {stl.1 with currentSection := .NOTHING} else stl.1
        pure (st2, stl.2)
      else pure (st, lines)
    if inStr (" X") currentLine ∧ inStr (" Y") currentLine ∧
        (inStr ("G1") currentLine ∨ inStr ("G0") currentLine) then do
      let p ← getXY currentLine
      pure ({stl.1 with lastPosition := p}, stl.2)
    else pure stl

noncomputable def goLines (cfg : Config) :
    List ℕ → MState × List Str → Except Err (MState × List Str)
  | [], acc => .ok acc
  | i :: rest, acc => do
      let acc2 ← stepLine cfg acc i
      goLines cfg rest acc2

/-- Model of the inner loop of `execute` over one layer's lines
(`for currentLine in lines:` with live in-place mutation; the index range
is fixed up front because `lines[idx] = ...` never changes the length). -/
noncomputable def processLines (cfg : Config) (st : MState) (lines : List Str) :
    Except Err (MState × List Str) :=
  goLines cfg (List.range lines.length) (st, lines)

/-- Model of one iteration of the layer loop of `execute`: split the layer
at index `i` into lines, process them, re-join, and store at the first
content-equal layer index (`data[data.index(layer)] = final_lines`). -/
noncomputable def stepLayer (cfg : Config) (acc : MState × List Str) (i : ℕ) :
    Except Err (MState × List Str) := do
  let layer := acc.2.getD i []
  let lines := splitChar '\n' layer
  let (st2, lines2) ← processLines cfg acc.1 lines
  .ok (st2, setByContent acc.2 layer (joinChar '\n' lines2))

noncomputable def goLayers (cfg : Config) :
    List ℕ → MState × List Str → Except Err (MState × List Str)
  | [], acc => .ok acc
  | i :: rest, acc => do
      let acc2 ← stepLayer cfg acc i
      goLayers cfg rest acc2

open Classical in
/-- Model of `GradientInfill.execute(data)`: scan the layer blocks with the
initial state of the source (`Section.NOTHING`, sentinel position
`(-10000, -10000)`, `perimeterSegments` and `new_Line` unbound).  The
up-front check models the `gradient_thickness / gradient_discretization`
division of line 353. -/
noncomputable def execute (cfg : Config) (data : List Str) : Except Err (List Str) :=
  if cfg.gradient_discretization = 0 then .error .zeroDivision
  else
    (goLayers cfg (List.range data.length)
      (⟨.NOTHING, ⟨-10000, -10000⟩, none, none⟩, data)).map Prod.snd

/-! ## Single-step evaluation lemmas

Each lemma evaluates `stepLine` on one class of line, under hypotheses
fixing the classifier outcomes for the concrete line text (discharged by
`decide` at use sites). -/

/-- Bridge between the `List.getD` spelling of the model and the
`getElem?`-normal form simp produces. -/
theorem getD_norm (lines : List Str) (i : ℕ) (cur : Str) (h : lines.getD i [] = cur) :
    lines[i]?.getD [] = cur := by
  rwa [List.getD_eq_getElem?_getD] at h

theorem stepLine_layer_marker (cfg : Config) (st : MState) (lines : List Str) (i : ℕ)
    (cur : Str) (hget : lines.getD i [] = cur)
    (h1 : is_begin_layer_line cur = true)
    (h2 : is_begin_inner_wall_line cur = false)
    (h3 : is_end_inner_wall_line cur = false)
    (h4 : is_begin_infill_segment_line cur = false)
    (h5 : is_extrusion_line cur = false)
    (h6 : inStr (" X") cur = false)
    (h7 : st.currentSection ≠ .INFILL) :
    stepLine cfg (st, lines) i = .ok ({st with perimeterSegments := some []}, lines) := by
  have h7b : (st.currentSection = Sect.INFILL) = False := eq_false h7
  simp [stepLine, getD_norm lines i cur hget, h1, h2, h3, h4, h5, h6, h7b, pure, Except.pure, Bind.bind, Except.bind]

theorem stepLine_innerwall_marker (cfg : Config) (st : MState) (lines : List Str) (i : ℕ)
    (cur : Str) (hget : lines.getD i [] = cur)
    (h1 : is_begin_layer_line cur = false)
    (h2 : is_begin_inner_wall_line cur = true)
    (h3 : is_end_inner_wall_line cur = false)
    (h4 : is_begin_infill_segment_line cur = false)
    (h5 : is_extrusion_line cur = false)
    (h6 : inStr (" X") cur = false) :
    stepLine cfg (st, lines) i = .ok ({st with currentSection := .INNER_WALL}, lines) := by
  simp [stepLine, getD_norm lines i cur hget, h1, h2, h3, h4, h5, h6, pure, Except.pure, Bind.bind, Except.bind]

theorem stepLine_outerwall_marker (cfg : Config) (st : MState) (lines : List Str) (i : ℕ)
    (cur : Str) (hget : lines.getD i [] = cur)
    (h1 : is_begin_layer_line cur = false)
    (h2 : is_begin_inner_wall_line cur = false)
    (h3 : is_end_inner_wall_line cur = true)
    (h4 : is_begin_infill_segment_line cur = false)
    (h5 : is_extrusion_line cur = false)
    (h6 : inStr (" X") cur = false) :
    stepLine cfg (st, lines) i = .ok ({st with currentSection := .NOTHING}, lines) := by
  simp [stepLine, getD_norm lines i cur hget, h1, h2, h3, h4, h5, h6, pure, Except.pure, Bind.bind, Except.bind]

theorem stepLine_fill_marker (cfg : Config) (st : MState) (lines : List Str) (i : ℕ)
    (cur : Str) (hget : lines.getD i [] = cur)
    (h1 : is_begin_layer_line cur = false)
    (h2 : is_begin_inner_wall_line cur = false)
    (h3 : is_end_inner_wall_line cur = false)
    (h4 : is_begin_infill_segment_line cur = true)
    (h5 : is_extrusion_line cur = false) :
    stepLine cfg (st, lines) i = .ok ({st with currentSection := .INFILL}, lines) := by
  simp [stepLine, getD_norm lines i cur hget, h1, h2, h3, h4, h5, pure, Except.pure, Bind.bind, Except.bind]

theorem stepLine_wall_extrusion (cfg : Config) (st : MState) (lines : List Str) (i : ℕ)
    (cur : Str) (segs : List Segment) (p : Point2D) (hget : lines.getD i [] = cur)
    (h1 : is_begin_layer_line cur = false)
    (h2 : is_begin_inner_wall_line cur = false)
    (h3 : is_end_inner_wall_line cur = false)
    (h4 : is_begin_infill_segment_line cur = false)
    (h5 : is_extrusion_line cur = true)
    (h6 : inStr (" X") cur = true)
    (h7 : inStr (" Y") cur = true)
    (h8 : inStr ("G1") cur = true)
    (hsec : st.currentSection = .INNER_WALL)
    (hperim : st.perimeterSegments = some segs)
    (hxy : getXY cur = .ok p) :
    stepLine cfg (st, lines) i =
      .ok ({st with
        perimeterSegments := some (segs ++ [⟨p, st.lastPosition⟩]),
        lastPosition := p}, lines) := by
  simp [stepLine, getD_norm lines i cur hget, h1, h2, h3, h4, h5, h6, h7, h8, hsec, hperim, hxy,
    pure, Except.pure, Bind.bind, Except.bind]

theorem stepLine_travel (cfg : Config) (st : MState) (lines : List Str) (i : ℕ)
    (cur : Str) (p : Point2D) (hget : lines.getD i [] = cur)
    (h1 : is_begin_layer_line cur = false)
    (h2 : is_begin_inner_wall_line cur = false)
    (h3 : is_end_inner_wall_line cur = false)
    (h4 : is_begin_infill_segment_line cur = false)
    (h5 : is_extrusion_line cur = false)
    (h6 : inStr (" X") cur = true)
    (h7 : inStr (" Y") cur = true)
    (h8 : inStr ("G1") cur = true ∨ inStr ("G0") cur = true)
    (hsec : st.currentSection ≠ .INFILL)
    (hxy : getXY cur = .ok p) :
    stepLine cfg (st, lines) i = .ok ({st with lastPosition := p}, lines) := by
  have hsb : (st.currentSection = Sect.INFILL) = False := eq_false hsec
  have hsw : (st.currentSection = Sect.INNER_WALL ∧ is_extrusion_line cur = true) = False := by
    simp [h5]
  rcases h8 with h8 | h8 <;>
    simp [stepLine, getD_norm lines i cur hget, h1, h2, h3, h4, h5, h6, h7, h8, hsb, hsw, hxy,
      pure, Except.pure, Bind.bind, Except.bind]

theorem stepLine_infill_speed (cfg : Config) (st : MState) (lines : List Str) (i : ℕ)
    (cur : Str) (sp : Str) (hget : lines.getD i [] = cur)
    (h1 : is_begin_layer_line cur = false)
    (h2 : is_begin_inner_wall_line cur = false)
    (h3 : is_end_inner_wall_line cur = false)
    (h4 : is_begin_infill_segment_line cur = false)
    (h5 : is_extrusion_line cur = false)
    (hF : inStr ("F") cur = true)
    (hG1 : inStr ("G1") cur = true)
    (hE : inStr ("E") cur = false)
    (hsemi : inStr (";") cur = false)
    (hX : inStr (" X") cur = false)
    (hsec : st.currentSection = .INFILL)
    (hsp : searchNum 'F' cur = some sp) :
    stepLine cfg (st, lines) i =
      .ok ({st with new_Line := some (str ("G1 F") ++ sp ++ str ("\n"))}, lines) := by
  simp [stepLine, getD_norm lines i cur hget, h1, h2, h3, h4, h5, hF, hG1, hE, hsemi, hX, hsec, hsp,
    pure, Except.pure, Bind.bind, Except.bind]

theorem stepLine_infill_extrusion (cfg : Config) (st : MState) (lines : List Str) (i : ℕ)
    (cur : Str) (st2 : MState) (lines2 : List Str) (p : Point2D)
    (hget : lines.getD i [] = cur)
    (h1 : is_begin_layer_line cur = false)
    (h2 : is_begin_inner_wall_line cur = false)
    (h3 : is_end_inner_wall_line cur = false)
    (h4 : is_begin_infill_segment_line cur = false)
    (hF : inStr ("F") cur = false)
    (hE : inStr ("E") cur = true)
    (hG1 : inStr ("G1") cur = true)
    (hX : inStr (" X") cur = true)
    (hY : inStr ("Y") cur = true)
    (hYs : inStr (" Y") cur = true)
    (hsemi : inStr (";") cur = false)
    (hsec : st.currentSection = .INFILL)
    (hrw : extrusionRewrite cfg st lines cur = .ok (st2, lines2))
    (hxy : getXY cur = .ok p) :
    stepLine cfg (st, lines) i = .ok ({st2 with lastPosition := p}, lines2) := by
  have h5 : (st.currentSection = Sect.INNER_WALL) = False := by
    rw [hsec]; simp
  simp [stepLine, getD_norm lines i cur hget, h1, h2, h3, h4, hF, hE, hG1, hX, hY, hYs, hsemi, hsec, h5, hrw, hxy,
    pure, Except.pure, Bind.bind, Except.bind]

theorem stepLine_infill_extrusion_error (cfg : Config) (st : MState) (lines : List Str) (i : ℕ)
    (cur : Str) (e : Err) (hget : lines.getD i [] = cur)
    (h1 : is_begin_layer_line cur = false)
    (h2 : is_begin_inner_wall_line cur = false)
    (h3 : is_end_inner_wall_line cur = false)
    (h4 : is_begin_infill_segment_line cur = false)
    (hF : inStr ("F") cur = false)
    (hE : inStr ("E") cur = true)
    (hG1 : inStr ("G1") cur = true)
    (hX : inStr (" X") cur = true)
    (hY : inStr ("Y") cur = true)
    (hsec : st.currentSection = .INFILL)
    (hrw : extrusionRewrite cfg st lines cur = .error e) :
    stepLine cfg (st, lines) i = .error e := by
  have h5 : (st.currentSection = Sect.INNER_WALL) = False := by
    rw [hsec]; simp
  simp [stepLine, getD_norm lines i cur hget, h1, h2, h3, h4, hF, hE, hG1, hX, hY, hsec, h5, hrw,
    pure, Except.pure, Bind.bind, Except.bind]

/-! ## Shared concrete scenario data -/

/-- Default settings (`gradientthickness 6`, `gradientdiscretization 4`,
`maxflow 350`, `minflow 50`) with the SMALL_SEGMENTS topology
(`mfill_mode "gyroid" = 1`). -/
noncomputable def cfgGyroid : Config := ⟨6, 4, 350, 50, 1⟩

/-- Default settings with the LINEAR topology (`mfill_mode "lines" = 2`). -/
noncomputable def cfgLinear : Config := ⟨6, 4, 350, 50, 2⟩

/-- The initial scanner state of `execute`. -/
noncomputable def mstInit : MState := ⟨.NOTHING, ⟨-10000, -10000⟩, none, none⟩

/-! ### Run: infill move with zero recorded perimeter segments (C8) -/

/-- Lines of the empty-perimeter scenario: a layer marker, an infill
marker, a speed line and one extrusion move, with no wall section. -/
def epLines : List Str :=
  [str (";LAYER:0"), str (";TYPE:FILL"), str ("G1 F600"), str ("G1 X1 Y1 E1")]

theorem epStep0 : stepLine cfgGyroid (mstInit, epLines) 0 =
    .ok (⟨.NOTHING, ⟨-10000, -10000⟩, some [], none⟩, epLines) := by
  rw [show (⟨.NOTHING, ⟨-10000, -10000⟩, some [], none⟩ : MState) =
    {mstInit with perimeterSegments := some []} from rfl]
  exact stepLine_layer_marker cfgGyroid mstInit epLines 0 (str (";LAYER:0")) (by decide)
    (by decide) (by decide) (by decide) (by decide) (by decide) (by decide) (by simp [mstInit])

theorem epStep1 : stepLine cfgGyroid (⟨.NOTHING, ⟨-10000, -10000⟩, some [], none⟩, epLines) 1 =
    .ok (⟨.INFILL, ⟨-10000, -10000⟩, some [], none⟩, epLines) :=
  stepLine_fill_marker cfgGyroid ⟨.NOTHING, ⟨-10000, -10000⟩, some [], none⟩ epLines 1
    (str (";TYPE:FILL")) (by decide) (by decide) (by decide) (by decide) (by decide) (by decide)

theorem epStep2 : stepLine cfgGyroid (⟨.INFILL, ⟨-10000, -10000⟩, some [], none⟩, epLines) 2 =
    .ok (⟨.INFILL, ⟨-10000, -10000⟩, some [], some (str ("G1 F600\n"))⟩, epLines) := by
  have h := stepLine_infill_speed cfgGyroid ⟨.INFILL, ⟨-10000, -10000⟩, some [], none⟩
    epLines 2 (str ("G1 F600")) (str ("600")) (by decide) (by decide) (by decide) (by decide)
    (by decide) (by decide) (by decide) (by decide) (by decide) (by decide) (by decide) rfl
    (by decide)
  rw [h]
  have : str ("G1 F") ++ str ("600") ++ str ("\n") = str ("G1 F600\n") := by decide
  simp [this]

theorem epStep3 :
    stepLine cfgGyroid (⟨.INFILL, ⟨-10000, -10000⟩, some [], some (str ("G1 F600\n"))⟩, epLines) 3
      = .error .emptyMin := by
  apply stepLine_infill_extrusion_error cfgGyroid
    ⟨.INFILL, ⟨-10000, -10000⟩, some [], some (str ("G1 F600\n"))⟩ epLines 3
    (str ("G1 X1 Y1 E1")) .emptyMin
    (by decide) (by decide) (by decide) (by decide) (by decide) (by decide) (by decide)
    (by decide) (by decide) (by decide) rfl
  have hxy : getXYq (str ("G1 X1 Y1 E1")) = .ok ((1, 0), (1, 0)) := by decide
  have h12 : ((1 : ℕ) = 2) = False := by simp
  simp only [extrusionRewrite, smallCase, getXY, hxy, Except.map, cfgGyroid, h12,
    min_distance_from_segment, minOverSegments, if_true, if_false, eq_self_iff_true,
    pure, Except.pure, Bind.bind, Except.bind]

/-! ## Run chaining helpers -/

theorem goLines_step (cfg : Config) (i : ℕ) (rest : List ℕ) (acc acc2 : MState × List Str)
    (h : stepLine cfg acc i = .ok acc2) :
    goLines cfg (i :: rest) acc = goLines cfg rest acc2 := by
  simp [goLines, h, Bind.bind, Except.bind]

theorem goLines_step_error (cfg : Config) (i : ℕ) (rest : List ℕ) (acc : MState × List Str)
    (e : Err) (h : stepLine cfg acc i = .error e) :
    goLines cfg (i :: rest) acc = .error e := by
  simp [goLines, h, Bind.bind, Except.bind]

theorem goLayers_step (cfg : Config) (i : ℕ) (rest : List ℕ) (acc acc2 : MState × List Str)
    (h : stepLayer cfg acc i = .ok acc2) :
    goLayers cfg (i :: rest) acc = goLayers cfg rest acc2 := by
  simp [goLayers, h, Bind.bind, Except.bind]

theorem goLayers_step_error (cfg : Config) (i : ℕ) (rest : List ℕ) (acc : MState × List Str)
    (e : Err) (h : stepLayer cfg acc i = .error e) :
    goLayers cfg (i :: rest) acc = .error e := by
  simp [goLayers, h, Bind.bind, Except.bind]

theorem stepLayer_eval (cfg : Config) (acc : MState × List Str) (i : ℕ) (layer : Str)
    (lines : List Str) (st2 : MState) (lines2 : List Str)
    (hget : acc.2.getD i [] = layer)
    (hsplit : splitChar '\n' layer = lines)
    (hrun : processLines cfg acc.1 lines = .ok (st2, lines2)) :
    stepLayer cfg acc i = .ok (st2, setByContent acc.2 layer (joinChar '\n' lines2)) := by
  simp [stepLayer, getD_norm acc.2 i layer hget, hsplit, hrun, Bind.bind, Except.bind]

theorem stepLayer_eval_error (cfg : Config) (acc : MState × List Str) (i : ℕ) (layer : Str)
    (lines : List Str) (e : Err)
    (hget : acc.2.getD i [] = layer)
    (hsplit : splitChar '\n' layer = lines)
    (hrun : processLines cfg acc.1 lines = .error e) :
    stepLayer cfg acc i = .error e := by
  simp [stepLayer, getD_norm acc.2 i layer hget, hsplit, hrun, Bind.bind, Except.bind]

/-! ## Claim C8: empty perimeter set -/

/-- Claim C8 (amended).  When an infill extrusion move is processed for a
layer with zero accumulated perimeter segments, the transformer does NOT
apply a defined policy: `min_distance_from_segment` is the minimum of an
empty sequence, which fails (Python `ValueError`), so the SMALL_SEGMENTS
branch aborts the whole `execute` call on that line. -/
theorem C8_empty_perimeter_fails :
    (∀ seg : Segment, min_distance_from_segment seg [] = .error .emptyMin) ∧
    (∀ (cfg : Config) (st : MState) (lines : List Str) (cur : Str) (cp : Point2D),
      st.perimeterSegments = some [] →
      smallCase cfg st lines cur cp = .error .emptyMin) := by
  constructor
  · intro seg
    rfl
  · intro cfg st lines cur cp hperim
    simp [smallCase, hperim, min_distance_from_segment, minOverSegments,
      Bind.bind, Except.bind]

/-- Witness for `C8_empty_perimeter_fails` at a concrete input. -/
theorem C8_witness :
    smallCase cfgGyroid ⟨.INFILL, ⟨0, 0⟩, some [], none⟩ [] [] ⟨0, 0⟩ = .error .emptyMin :=
  C8_empty_perimeter_fails.2 cfgGyroid ⟨.INFILL, ⟨0, 0⟩, some [], none⟩ [] [] ⟨0, 0⟩ rfl

/-- Counterexample to claim C8 as stated: a full run on a layer whose
infill move arrives with an empty perimeter set raises the empty-minimum
error instead of applying any flow policy. -/
theorem C8_counterexample :
    execute cfgGyroid [str (";LAYER:0\n;TYPE:FILL\nG1 F600\nG1 X1 Y1 E1")] =
      .error .emptyMin := by
  have hsplit : splitChar '\n' (str (";LAYER:0\n;TYPE:FILL\nG1 F600\nG1 X1 Y1 E1")) =
      epLines := by decide
  have hrun : processLines cfgGyroid mstInit epLines = .error .emptyMin := by
    have hrange : List.range epLines.length = [0, 1, 2, 3] := by decide
    rw [processLines, hrange, goLines_step _ _ _ _ _ epStep0, goLines_step _ _ _ _ _ epStep1,
      goLines_step _ _ _ _ _ epStep2]
    exact goLines_step_error _ _ _ _ _ epStep3
  have hlayer : stepLayer cfgGyroid
      (mstInit, [str (";LAYER:0\n;TYPE:FILL\nG1 F600\nG1 X1 Y1 E1")]) 0 = .error .emptyMin :=
    stepLayer_eval_error _ _ _ _ epLines _ rfl hsplit hrun
  have hd4 : (cfgGyroid.gradient_discretization = 0) = False := by
    norm_num [cfgGyroid]
  rw [execute]
  simp only [hd4, if_false]
  rw [show (⟨⟨.NOTHING, ⟨-10000, -10000⟩, none, none⟩,
      [str (";LAYER:0\n;TYPE:FILL\nG1 F600\nG1 X1 Y1 E1")]⟩ :
        MState × List Str) =
      (mstInit, [str (";LAYER:0\n;TYPE:FILL\nG1 F600\nG1 X1 Y1 E1")]) from rfl]
  rw [show List.range [str (";LAYER:0\n;TYPE:FILL\nG1 F600\nG1 X1 Y1 E1")].length = [0]
    from by decide]
  rw [goLayers_step_error _ _ _ _ _ hlayer]
  rfl

/-! ## Claim C6: degenerate zero-length perimeter segment -/

/-- Claim C6 (amended).  The distance routine does NOT guard the division:
for a segment whose endpoints coincide the squared length is zero and the
division raises (`ZeroDivisionError`), so the computation aborts instead of
returning a point-to-point distance; no NaN value flows onward because no
value is produced at all. -/
theorem C6_degenerate_segment_divides_by_zero (seg : Segment) (q : Point2D)
    (h : seg.point1 = seg.point2) :
    dist seg q = .error .zeroDivision := by
  obtain ⟨p1, p2⟩ := seg
  cases h
  have hz : (p1.x - p1.x) * (p1.x - p1.x) + (p1.y - p1.y) * (p1.y - p1.y) = 0 := by ring
  simp [dist, hz]

/-- Witness for `C6_degenerate_segment_divides_by_zero` at a concrete
degenerate segment. -/
theorem C6_witness :
    dist ⟨⟨1, 2⟩, ⟨1, 2⟩⟩ ⟨3, 4⟩ = .error .zeroDivision :=
  C6_degenerate_segment_divides_by_zero ⟨⟨1, 2⟩, ⟨1, 2⟩⟩ ⟨3, 4⟩ rfl

/-- Counterexample to claim C6 as stated: on a zero-length segment the
unguarded division fires and an exception propagates; in particular the
result is not the point-to-point distance `distance((1,2),(3,4))`. -/
theorem C6_counterexample :
    dist ⟨⟨1, 2⟩, ⟨1, 2⟩⟩ ⟨3, 4⟩ = .error .zeroDivision ∧
    dist ⟨⟨1, 2⟩, ⟨1, 2⟩⟩ ⟨3, 4⟩ ≠ .ok (get_points_distance ⟨1, 2⟩ ⟨3, 4⟩) := by
  have hz : ((1 : ℝ) - 1) * (1 - 1) + (2 - 2) * (2 - 2) = 0 := by ring
  constructor
  · simp [dist, hz]
  · simp [dist, hz]

/-! ## Claim C7: layer isolation -/

/-- On a layer-start marker, the first thing the step does is reset the
perimeter set to empty, so the step result does not depend on the
previously accumulated perimeter segments. -/
theorem stepLine_layer_reset (cfg : Config) (st : MState) (lines : List Str) (i : ℕ)
    (h : is_begin_layer_line (lines.getD i []) = true) :
    stepLine cfg (st, lines) i = stepLine cfg ({st with perimeterSegments := some []}, lines) i
    := by
  simp only [stepLine, h, if_true]

/-- Claim C7.  (a) On every layer-start marker the perimeter segment set is
reset to empty (the step is insensitive to the accumulated set); (b) two
scans that differ ONLY in the accumulated perimeter segments process a line
block that begins with a layer-start marker identically, so segments
recorded in layer N never contribute to any computation for layer N+1. -/
theorem C7_layer_isolation :
    (∀ (cfg : Config) (st : MState) (lines : List Str) (i : ℕ),
      is_begin_layer_line (lines.getD i []) = true →
      stepLine cfg (st, lines) i =
        stepLine cfg ({st with perimeterSegments := some []}, lines) i) ∧
    (∀ (cfg : Config) (s1 s2 : MState) (lines : List Str),
      is_begin_layer_line (lines.getD 0 []) = true →
      s1.currentSection = s2.currentSection →
      s1.lastPosition = s2.lastPosition →
      s1.new_Line = s2.new_Line →
      processLines cfg s1 lines = processLines cfg s2 lines) := by
  refine ⟨stepLine_layer_reset, ?_⟩
  intro cfg s1 s2 lines h he1 he2 he3
  match lines with
  | [] => exact absurd h (by decide)
  | l0 :: rest =>
    have hstep : stepLine cfg (s1, l0 :: rest) 0 = stepLine cfg (s2, l0 :: rest) 0 := by
      rw [stepLine_layer_reset cfg s1 (l0 :: rest) 0 h,
        stepLine_layer_reset cfg s2 (l0 :: rest) 0 h]
      obtain ⟨a1, b1, c1, d1⟩ := s1
      obtain ⟨a2, b2, c2, d2⟩ := s2
      simp only [MState.mk.injEq] at he1 he2 he3 ⊢
      simp_all
    simp only [processLines, List.length_cons, List.range_succ_eq_map, goLines, Bind.bind,
      hstep]

/-- Witness for `C7_layer_isolation` at a concrete input: a state that has
accumulated one wall segment and a state with the perimeter local still
unbound process a block starting with a layer marker identically. -/
theorem C7_witness :
    processLines cfgGyroid ⟨.NOTHING, ⟨0, 0⟩, some [⟨⟨0, 0⟩, ⟨0, 1⟩⟩], none⟩
        [str (";LAYER:1")] =
      processLines cfgGyroid ⟨.NOTHING, ⟨0, 0⟩, none, none⟩ [str (";LAYER:1")] :=
  C7_layer_isolation.2 cfgGyroid ⟨.NOTHING, ⟨0, 0⟩, some [⟨⟨0, 0⟩, ⟨0, 1⟩⟩], none⟩
    ⟨.NOTHING, ⟨0, 0⟩, none, none⟩ [str (";LAYER:1")] (by decide) rfl rfl rfl

/-! ## Claim C5: speed-only line in the infill section -/

/-- Claim C5 (amended).  In the INFILL section, a `G1` line carrying an `F`
field and no extrusion is NOT itself replaced in the output: the line list
is unchanged (the line passes through byte-for-byte at its position), and
the minimal speed command `G1 F<speed>\n` is only recorded in the
`new_Line` accumulator, to be prepended to the next rewritten extrusion
line. -/
theorem C5_speed_line_recorded_not_replaced (cfg : Config) (st : MState) (lines : List Str)
    (i : ℕ) (cur : Str) (sp : Str) (hget : lines.getD i [] = cur)
    (h1 : is_begin_layer_line cur = false)
    (h2 : is_begin_inner_wall_line cur = false)
    (h3 : is_end_inner_wall_line cur = false)
    (h4 : is_begin_infill_segment_line cur = false)
    (h5 : is_extrusion_line cur = false)
    (hF : inStr ("F") cur = true)
    (hG1 : inStr ("G1") cur = true)
    (hE : inStr ("E") cur = false)
    (hsemi : inStr (";") cur = false)
    (hX : inStr (" X") cur = false)
    (hsec : st.currentSection = .INFILL)
    (hsp : searchNum 'F' cur = some sp) :
    stepLine cfg (st, lines) i =
      .ok ({st with new_Line := some (str ("G1 F") ++ sp ++ str ("\n"))}, lines) :=
  stepLine_infill_speed cfg st lines i cur sp hget h1 h2 h3 h4 h5 hF hG1 hE hsemi hX hsec hsp

/-- Witness for `C5_speed_line_recorded_not_replaced` at a concrete input. -/
theorem C5_witness :
    stepLine cfgGyroid (⟨.INFILL, ⟨0, 0⟩, none, none⟩, [str ("G1 F600")]) 0 =
      .ok (⟨.INFILL, ⟨0, 0⟩, none, some (str ("G1 F") ++ str ("600") ++ str ("\n"))⟩,
        [str ("G1 F600")]) :=
  C5_speed_line_recorded_not_replaced cfgGyroid ⟨.INFILL, ⟨0, 0⟩, none, none⟩
    [str ("G1 F600")] 0 (str ("G1 F600")) (str ("600")) (by decide) (by decide) (by decide)
    (by decide) (by decide) (by decide) (by decide) (by decide) (by decide) (by decide)
    (by decide) rfl (by decide)

/-- Lines of the speed-line scenario: the speed line carries extra `X`/`Y`
fields that, per claim C5, would have to be discarded. -/
def spLines : List Str :=
  [str (";LAYER:0"), str (";TYPE:FILL"), str ("G1 F1200 X1 Y1")]

theorem spStep0 : stepLine cfgGyroid (mstInit, spLines) 0 =
    .ok (⟨.NOTHING, ⟨-10000, -10000⟩, some [], none⟩, spLines) := by
  rw [show (⟨.NOTHING, ⟨-10000, -10000⟩, some [], none⟩ : MState) =
    {mstInit with perimeterSegments := some []} from rfl]
  exact stepLine_layer_marker cfgGyroid mstInit spLines 0 (str (";LAYER:0")) (by decide)
    (by decide) (by decide) (by decide) (by decide) (by decide) (by decide) (by simp [mstInit])

theorem spStep1 : stepLine cfgGyroid (⟨.NOTHING, ⟨-10000, -10000⟩, some [], none⟩, spLines) 1 =
    .ok (⟨.INFILL, ⟨-10000, -10000⟩, some [], none⟩, spLines) :=
  stepLine_fill_marker cfgGyroid ⟨.NOTHING, ⟨-10000, -10000⟩, some [], none⟩ spLines 1
    (str (";TYPE:FILL")) (by decide) (by decide) (by decide) (by decide) (by decide) (by decide)

theorem spStep2 : stepLine cfgGyroid (⟨.INFILL, ⟨-10000, -10000⟩, some [], none⟩, spLines) 2 =
    .ok (⟨.INFILL, ⟨1, 1⟩, some [], some (str ("G1 F1200\n"))⟩, spLines) := by
  have hxy : getXYq (str ("G1 F1200 X1 Y1")) = .ok ((1, 0), (1, 0)) := by decide
  have hsp : searchNum 'F' (str ("G1 F1200 X1 Y1")) = some (str ("1200")) := by decide
  have hcat : str ("G1 F") ++ str ("1200") ++ str ("\n") = str ("G1 F1200\n") := by decide
  have hdec : decToR (1, 0) = 1 := by norm_num [decToR]
  have c1 : is_begin_layer_line (str ("G1 F1200 X1 Y1")) = false := by decide
  have c2 : is_begin_inner_wall_line (str ("G1 F1200 X1 Y1")) = false := by decide
  have c3 : is_end_inner_wall_line (str ("G1 F1200 X1 Y1")) = false := by decide
  have c4 : is_begin_infill_segment_line (str ("G1 F1200 X1 Y1")) = false := by decide
  have c5 : is_extrusion_line (str ("G1 F1200 X1 Y1")) = false := by decide
  have c6 : inStr ("F") (str ("G1 F1200 X1 Y1")) = true := by decide
  have c7 : inStr ("G1") (str ("G1 F1200 X1 Y1")) = true := by decide
  have c8 : inStr ("E") (str ("G1 F1200 X1 Y1")) = false := by decide
  have c9 : inStr (";") (str ("G1 F1200 X1 Y1")) = false := by decide
  have ca : inStr (" X") (str ("G1 F1200 X1 Y1")) = true := by decide
  have cb : inStr (" Y") (str ("G1 F1200 X1 Y1")) = true := by decide
  simp [stepLine, spLines, hxy, hsp, hcat, hdec, c1, c2, c3, c4, c5, c6, c7, c8, c9, ca, cb,
    getXY, Except.map, pure, Except.pure, Bind.bind, Except.bind]

/-- Counterexample to claim C5 as stated: the speed line
`G1 F1200 X1 Y1` inside an infill section is emitted unchanged
byte-for-byte (its extra fields are NOT discarded and it is NOT replaced by
the minimal command `G1 F1200`). -/
theorem C5_counterexample :
    execute cfgGyroid [str (";LAYER:0\n;TYPE:FILL\nG1 F1200 X1 Y1")] =
      .ok [str (";LAYER:0\n;TYPE:FILL\nG1 F1200 X1 Y1")] ∧
    str ("G1 F1200 X1 Y1") ≠ str ("G1 F1200") := by
  constructor
  · have hsplit : splitChar '\n' (str (";LAYER:0\n;TYPE:FILL\nG1 F1200 X1 Y1")) = spLines := by
      decide
    have hrun : processLines cfgGyroid mstInit spLines =
        .ok (⟨.INFILL, ⟨1, 1⟩, some [], some (str ("G1 F1200\n"))⟩, spLines) := by
      have hrange : List.range spLines.length = [0, 1, 2] := by decide
      rw [processLines, hrange, goLines_step _ _ _ _ _ spStep0, goLines_step _ _ _ _ _ spStep1,
        goLines_step _ _ _ _ _ spStep2]
      rfl
    have hlayer : stepLayer cfgGyroid
        (mstInit, [str (";LAYER:0\n;TYPE:FILL\nG1 F1200 X1 Y1")]) 0 =
        .ok (⟨.INFILL, ⟨1, 1⟩, some [], some (str ("G1 F1200\n"))⟩,
          [str (";LAYER:0\n;TYPE:FILL\nG1 F1200 X1 Y1")]) := by
      have h := stepLayer_eval cfgGyroid
        (mstInit, [str (";LAYER:0\n;TYPE:FILL\nG1 F1200 X1 Y1")]) 0
        (str (";LAYER:0\n;TYPE:FILL\nG1 F1200 X1 Y1")) spLines
        ⟨.INFILL, ⟨1, 1⟩, some [], some (str ("G1 F1200\n"))⟩ spLines rfl hsplit hrun
      rw [h]
      have hset : setByContent [str (";LAYER:0\n;TYPE:FILL\nG1 F1200 X1 Y1")]
          (str (";LAYER:0\n;TYPE:FILL\nG1 F1200 X1 Y1")) (joinChar '\n' spLines) =
          [str (";LAYER:0\n;TYPE:FILL\nG1 F1200 X1 Y1")] := by decide
      rw [hset]
    have hd4 : (cfgGyroid.gradient_discretization = 0) = False := by
      norm_num [cfgGyroid]
    rw [execute]
    simp only [hd4, if_false]
    rw [show (⟨⟨.NOTHING, ⟨-10000, -10000⟩, none, none⟩,
        [str (";LAYER:0\n;TYPE:FILL\nG1 F1200 X1 Y1")]⟩ : MState × List Str) =
      (mstInit, [str (";LAYER:0\n;TYPE:FILL\nG1 F1200 X1 Y1")]) from rfl]
    rw [show List.range [str (";LAYER:0\n;TYPE:FILL\nG1 F1200 X1 Y1")].length = [0]
      from by decide]
    rw [goLayers_step _ _ _ _ _ hlayer]
    rfl
  · decide

/-! ## Geometry evaluation helpers -/

theorem sqrt_val {s c : ℝ} (h : s = c ^ 2) (hc : 0 ≤ c) : Real.sqrt s = c := by
  subst h; exact Real.sqrt_sq hc

/-- Distance from a point right of the wall segment `(0,10)-(0,0)` (scanner
orientation: new point first) to that wall: for `0 <= b <= 10` the
projection is interior and the distance is the `x` offset. -/
theorem dist_wall_rev (a b : ℝ) (hb0 : 0 ≤ b) (hb1 : b ≤ 10) (ha : 0 ≤ a) :
    dist ⟨⟨0, 10⟩, ⟨0, 0⟩⟩ ⟨a, b⟩ = .ok a := by
  simp only [dist]
  norm_num
  rw [if_neg (by intro hc; nlinarith), if_neg (by intro hc; nlinarith)]
  exact sqrt_val (by ring) ha

/-! ## Claim C2: SMALL_SEGMENTS rewrite and its exclusive boundary -/

/-- Concatenation of elements each followed by one space: the text the
SMALL_SEGMENTS rebuild emits for the non-`E` fields. -/
def joinSp : List Str → Str
  | [] => []
  | e :: rest => e ++ ' ' :: joinSp rest

/-- Shape of the SMALL_SEGMENTS rebuild when exactly the last element
carries the `E` field: every other element is copied verbatim (followed by
a space) and the `E` value is replaced by the scaled, 5-decimal-rounded
value. -/
theorem smallRebuild_split (m : ℝ) (pre : List Str) (eElem : Str) (base : Str) (v : Dec)
    (hpre : ∀ e ∈ pre, inStr ("E") e = false)
    (hE : inStr ("E") eElem = true)
    (hparse : pyFloat eElem.tail = some v) :
    smallRebuild m (pre ++ [eElem]) base =
      .ok (base ++ joinSp pre ++ str ("E") ++ pyRoundStr (decToR v * m) 5) := by
  induction pre generalizing base with
  | nil =>
      simp [smallRebuild, joinSp, hE, hparse]
  | cons e rest ih =>
      have he : inStr ("E") e = false := hpre e (List.mem_cons_self e rest)
      have hrest : ∀ x ∈ rest, inStr ("E") x = false :=
        fun x hx => hpre x (List.mem_cons_of_mem e hx)
      rw [List.cons_append]
      rw [show smallRebuild m (e :: (rest ++ [eElem])) base =
        smallRebuild m (rest ++ [eElem]) (base ++ e ++ str (" ")) from by
          simp [smallRebuild, he]]
      rw [ih (base ++ e ++ str (" ")) hrest, joinSp]
      simp [str, List.append_assoc]

/-- Claim C2.  For SMALL_SEGMENTS topology: (a) when the midpoint distance
`d` of the whole move satisfies `gradient_thickness <= d` (including
equality: the boundary is exclusive) the line list is left unmodified;
(b) when `d < gradient_thickness`, exactly the extrusion field is replaced
by the original value scaled by `mapRange((0,T),(max%,min%),d)` (then
formatted through the documented 5-decimal output rounding), all other
fields are preserved verbatim in order, and the rewritten text (prefixed by
the recorded speed command) replaces the line in the list. -/
theorem C2_small_segments_boundary (cfg : Config) (st : MState) (lines : List Str) (cur : Str)
    (cp : Point2D) (base : Str) (segs : List Segment) (d : ℝ) (pre : List Str) (eElem : Str)
    (v : Dec)
    (hperim : st.perimeterSegments = some segs)
    (hbase : st.new_Line = some base)
    (hd : min_distance_from_segment ⟨st.lastPosition, cp⟩ segs = .ok d) :
    (cfg.gradient_thickness ≤ d → smallCase cfg st lines cur cp = .ok (st, lines)) ∧
    (d < cfg.gradient_thickness →
      splitChar ' ' cur = pre ++ [eElem] →
      (∀ e ∈ pre, inStr ("E") e = false) →
      inStr ("E") eElem = true →
      pyFloat eElem.tail = some v →
      smallCase cfg st lines cur cp = .ok (st,
        setByContent lines cur (base ++ joinSp pre ++ str ("E") ++
          pyRoundStr (decToR v * mapRange (0, cfg.gradient_thickness)
            (cfg.max_flow / 100, cfg.min_flow / 100) d) 5 ++ str ("\n")))) := by
  constructor
  · intro hge
    have hlt : (d < cfg.gradient_thickness) = False := by
      simp [not_lt.mpr hge]
    simp [smallCase, hperim, hbase, hd, hlt, Bind.bind, Except.bind]
  · intro hlt hsplit hpre hE hparse
    have hr := smallRebuild_split
      (mapRange (0, cfg.gradient_thickness) (cfg.max_flow / 100, cfg.min_flow / 100) d)
      pre eElem base v hpre hE hparse
    simp [smallCase, hperim, hbase, hd, hlt, hsplit, hr, Bind.bind, Except.bind,
      List.append_assoc]

/-- Witness for `C2_small_segments_boundary`: a move whose midpoint is at
distance exactly `gradient_thickness = 6` from the wall is left
unmodified. -/
theorem C2_witness :
    smallCase cfgGyroid ⟨.INFILL, ⟨5, 3⟩, some [⟨⟨0, 10⟩, ⟨0, 0⟩⟩], some []⟩
      [str ("G1 X7 Y3 E1")] (str ("G1 X7 Y3 E1")) ⟨7, 3⟩ =
      .ok (⟨.INFILL, ⟨5, 3⟩, some [⟨⟨0, 10⟩, ⟨0, 0⟩⟩], some []⟩, [str ("G1 X7 Y3 E1")]) := by
  have hd : min_distance_from_segment ⟨⟨5, 3⟩, ⟨7, 3⟩⟩ [⟨⟨0, 10⟩, ⟨0, 0⟩⟩] = .ok 6 := by
    show minOverSegments ⟨((5 : ℝ) + 7) / 2, ((3 : ℝ) + 3) / 2⟩ [⟨⟨0, 10⟩, ⟨0, 0⟩⟩] = .ok 6
    rw [show minOverSegments ⟨((5 : ℝ) + 7) / 2, ((3 : ℝ) + 3) / 2⟩ [⟨⟨0, 10⟩, ⟨0, 0⟩⟩] =
      dist ⟨⟨0, 10⟩, ⟨0, 0⟩⟩ ⟨((5 : ℝ) + 7) / 2, ((3 : ℝ) + 3) / 2⟩ from rfl]
    rw [show ((5 : ℝ) + 7) / 2 = 6 from by norm_num,
      show ((3 : ℝ) + 3) / 2 = 3 from by norm_num]
    exact dist_wall_rev 6 3 (by norm_num) (by norm_num) (by norm_num)
  exact (C2_small_segments_boundary cfgGyroid ⟨.INFILL, ⟨5, 3⟩, some [⟨⟨0, 10⟩, ⟨0, 0⟩⟩],
    some []⟩ [str ("G1 X7 Y3 E1")] (str ("G1 X7 Y3 E1")) ⟨7, 3⟩ [] [⟨⟨0, 10⟩, ⟨0, 0⟩⟩] 6
    [] [] (0, 0) rfl rfl hd).1 (by norm_num [cfgGyroid])

/-! ## Claim C3: LINEAR short-move branch -/

/-- Rounding to `n` decimals is exact on values that are integer multiples
of `10^-n`. -/
theorem pyRound_exact (x : ℝ) (n : ℕ) (k : ℤ) (h : x * 10 ^ n = k) : pyRound x n = k := by
  unfold pyRound roundHalfEven
  rw [h]
  simp [Int.floor_intCast]

theorem roundHalfEven_up (x : ℝ) (k : ℤ) (hf : ⌊x⌋ = k) (hgt : x - k > 1 / 2) :
    roundHalfEven x = k + 1 := by
  unfold roundHalfEven
  rw [hf, if_neg (by linarith), if_pos hgt]

/-- Shape of the LINEAR short-branch rebuild when exactly the last element
carries the `E` field: every other element is copied verbatim (followed by
a space) and the `E` value is replaced by `extrusion * max_flow/100`,
rounded to 5 decimals for output. -/
theorem linearShort_split (e mf : ℝ) (pre : List Str) (eElem : Str) (out : Str)
    (hpre : ∀ x ∈ pre, inStr ("E") x = false)
    (hE : inStr ("E") eElem = true) :
    linearShort e mf (pre ++ [eElem]) out =
      out ++ joinSp pre ++ str ("E") ++ pyRoundStr (e * mf / 100) 5 := by
  induction pre generalizing out with
  | nil => simp [linearShort, joinSp, hE]
  | cons a rest ih =>
      have ha : inStr ("E") a = false := hpre a (List.mem_cons_self a rest)
      have hrest : ∀ x ∈ rest, inStr ("E") x = false :=
        fun x hx => hpre x (List.mem_cons_of_mem a hx)
      rw [List.cons_append]
      rw [show linearShort e mf (a :: (rest ++ [eElem])) out =
        linearShort e mf (rest ++ [eElem]) (out ++ a ++ str (" ")) from by
          simp [linearShort, ha]]
      rw [ih (out ++ a ++ str (" ")) hrest, joinSp]
      simp [str, List.append_assoc]

/-- Claim C3 (amended).  For LINEAR topology with `segmentSteps < 2` the
move is not subdivided: the single line is replaced in place, coordinates
and all non-`E` fields are copied verbatim, and the rewritten extrusion is
`original * max_flow/100` rounded to 5 decimals for output — exact
whenever that product is an integer multiple of `10^-5` (second
conjunct). -/
theorem C3_linear_short_rounded (cfg : Config) (st : MState) (lines : List Str) (cur : Str)
    (cp : Point2D) (eD : Dec) (pre : List Str) (eElem : Str)
    (hscan : scanE (splitChar ' ' cur) = .ok (some eD))
    (hsplit : splitChar ' ' cur = pre ++ [eElem])
    (hpre : ∀ x ∈ pre, inStr ("E") x = false)
    (hE : inStr ("E") eElem = true)
    (hgdl : cfg.gradient_thickness / cfg.gradient_discretization ≠ 0)
    (hst0 : get_points_distance st.lastPosition cp /
      (cfg.gradient_thickness / cfg.gradient_discretization) ≠ 0)
    (hst2 : get_points_distance st.lastPosition cp /
      (cfg.gradient_thickness / cfg.gradient_discretization) < 2) :
    linearCase cfg st lines cur cp = .ok (st, setByContent lines cur
      (joinSp pre ++ str ("E") ++ pyRoundStr (decToR eD * cfg.max_flow / 100) 5)) ∧
    (∀ k : ℤ, decToR eD * cfg.max_flow / 100 * 10 ^ 5 = (k : ℝ) →
      pyRound (decToR eD * cfg.max_flow / 100) 5 = k) := by
  constructor
  · have hd0 : (cfg.gradient_thickness / cfg.gradient_discretization = 0) = False :=
      eq_false hgdl
    have hs0 : (get_points_distance st.lastPosition cp /
        (cfg.gradient_thickness / cfg.gradient_discretization) = 0) = False := eq_false hst0
    have hs2 : (2 ≤ get_points_distance st.lastPosition cp /
        (cfg.gradient_thickness / cfg.gradient_discretization)) = False :=
      eq_false (not_le.mpr hst2)
    rw [hsplit] at hscan
    have hshort := linearShort_split (decToR eD) cfg.max_flow pre eElem [] hpre hE
    simp only [linearCase, hsplit, hscan, hd0, hs0, hs2, if_false, Bind.bind, Except.bind,
      hshort, List.nil_append]
  · intro k hk
    exact pyRound_exact _ _ _ hk

/-- Witness for `C3_linear_short_rounded`: a short move (`segmentSteps =
2/3 < 2`) with `E0.2`; the product `0.2 * 3.5 = 0.7` is 5-decimal exact. -/
theorem C3_witness :
    (linearCase cfgLinear ⟨.INFILL, ⟨0, 0⟩, some [], none⟩ [str ("G1 X1 Y0 E0.2")]
        (str ("G1 X1 Y0 E0.2")) ⟨1, 0⟩ =
      .ok (⟨.INFILL, ⟨0, 0⟩, some [], none⟩, setByContent [str ("G1 X1 Y0 E0.2")]
        (str ("G1 X1 Y0 E0.2")) (joinSp [str ("G1"), str ("X1"), str ("Y0")] ++ str ("E") ++
          pyRoundStr (decToR (2, 1) * cfgLinear.max_flow / 100) 5))) ∧
    pyRound (decToR (2, 1) * cfgLinear.max_flow / 100) 5 = 70000 := by
  have hlen : get_points_distance ⟨0, 0⟩ ⟨1, 0⟩ = 1 := by norm_num [get_points_distance]
  have h := C3_linear_short_rounded cfgLinear ⟨.INFILL, ⟨0, 0⟩, some [], none⟩
    [str ("G1 X1 Y0 E0.2")] (str ("G1 X1 Y0 E0.2")) ⟨1, 0⟩ (2, 1)
    [str ("G1"), str ("X1"), str ("Y0")] (str ("E0.2")) (by decide) (by decide) (by decide)
    (by decide) (by norm_num [cfgLinear]) (by rw [show (⟨.INFILL, ⟨0, 0⟩, some [], none⟩ :
      MState).lastPosition = (⟨0, 0⟩ : Point2D) from rfl, hlen]; norm_num [cfgLinear])
    (by rw [show (⟨.INFILL, ⟨0, 0⟩, some [], none⟩ : MState).lastPosition =
      (⟨0, 0⟩ : Point2D) from rfl, hlen]; norm_num [cfgLinear])
  exact ⟨h.1, h.2 70000 (by norm_num [decToR, cfgLinear])⟩

/-- Counterexample to claim C3 as stated: for `E0.123456` the product
`0.123456 * 3.5 = 0.432096` needs six decimals, the emitted field is the
rounded `E0.4321`, and the rewritten extrusion is NOT exactly
`original * max_flow/100`. -/
theorem C3_counterexample :
    (linearCase cfgLinear ⟨.INFILL, ⟨0, 0⟩, some [], none⟩ [str ("G1 X1 Y0 E0.123456")]
        (str ("G1 X1 Y0 E0.123456")) ⟨1, 0⟩ =
      .ok (⟨.INFILL, ⟨0, 0⟩, some [], none⟩, [str ("G1 X1 Y0 E0.4321")])) ∧
    pyRound (decToR (123456, 6) * cfgLinear.max_flow / 100) 5 = 43210 ∧
    ((43210 : ℝ) / 10 ^ 5 ≠ decToR (123456, 6) * cfgLinear.max_flow / 100) := by
  have hround : pyRound (decToR (123456, 6) * cfgLinear.max_flow / 100) 5 = 43210 := by
    have h1 : decToR (123456, 6) * cfgLinear.max_flow / 100 * 10 ^ 5 = 43209.6 := by
      norm_num [decToR, cfgLinear]
    unfold pyRound
    rw [h1]
    have hf : ⌊(43209.6 : ℝ)⌋ = 43209 := by
      rw [Int.floor_eq_iff]
      norm_num
    rw [roundHalfEven_up _ 43209 hf (by rw [Int.cast_ofNat]; norm_num)]
    norm_num
  refine ⟨?_, hround, by norm_num [decToR, cfgLinear]⟩
  have hscan : scanE (splitChar ' ' (str ("G1 X1 Y0 E0.123456"))) =
      .ok (some (123456, 6)) := by decide
  have hlen : get_points_distance ⟨0, 0⟩ ⟨1, 0⟩ = 1 := by norm_num [get_points_distance]
  have hsplit : splitChar ' ' (str ("G1 X1 Y0 E0.123456")) =
      [str ("G1"), str ("X1"), str ("Y0")] ++ [str ("E0.123456")] := by decide
  have hshort := linearShort_split (decToR (123456, 6)) cfgLinear.max_flow
    [str ("G1"), str ("X1"), str ("Y0")] (str ("E0.123456")) []
    (by decide) (by decide)
  have hd0 : (cfgLinear.gradient_thickness / cfgLinear.gradient_discretization = 0) = False := by
    norm_num [cfgLinear]
  have hs0 : (get_points_distance ⟨0, 0⟩ ⟨1, 0⟩ /
      (cfgLinear.gradient_thickness / cfgLinear.gradient_discretization) = 0) = False := by
    rw [hlen]; norm_num [cfgLinear]
  have hs2 : (2 ≤ get_points_distance ⟨0, 0⟩ ⟨1, 0⟩ /
      (cfgLinear.gradient_thickness / cfgLinear.gradient_discretization)) = False := by
    rw [hlen]; norm_num [cfgLinear]
  rw [hsplit] at hscan
  have hfmt : fmtScaledInt 43210 5 = str ("0.4321") := by decide
  have hfin : setByContent [str ("G1 X1 Y0 E0.123456")] (str ("G1 X1 Y0 E0.123456"))
      ([] ++ joinSp [str ("G1"), str ("X1"), str ("Y0")] ++ str ("E") ++ str ("0.4321")) =
      [str ("G1 X1 Y0 E0.4321")] := by decide
  simp only [linearCase, hscan, hsplit, hd0, hs0, hs2, if_false, Bind.bind, Except.bind,
    hshort, pyRoundStr, hround, hfmt, hfin]


/-! Geometry of the LINEAR subdivision loop (claim C1). -/

noncomputable def stepPos (lp dir : Point2D) (k : ℕ) : Point2D :=
  ⟨lp.x + k * dir.x, lp.y + k * dir.y⟩

def nondegenerate (sg : Segment) : Prop :=
  (sg.point2.x - sg.point1.x) * (sg.point2.x - sg.point1.x) +
    (sg.point2.y - sg.point1.y) * (sg.point2.y - sg.point1.y) ≠ 0

theorem dist_ok (sg : Segment) (p : Point2D) (h : nondegenerate sg) :
    ∃ d, dist sg p = .ok d :=
  ⟨_, by simp only [dist]; rw [if_neg h]⟩

theorem minOver_ok (mid : Point2D) (segs : List Segment) (hne : segs ≠ [])
    (hnd : ∀ sg ∈ segs, nondegenerate sg) :
    ∃ d, minOverSegments mid segs = .ok d := by
  induction segs with
  | nil => exact absurd rfl hne
  | cons s rest ih =>
      match rest with
      | [] => exact dist_ok s mid (hnd s (List.mem_cons_self s []))
      | s2 :: r2 =>
          obtain ⟨d1, hd1⟩ := dist_ok s mid (hnd s (List.mem_cons_self s (s2 :: r2)))
          obtain ⟨dm, hdm⟩ := ih (by simp) (fun sg hsg => hnd sg (List.mem_cons_of_mem s hsg))
          exact ⟨min d1 dm, by simp [minOverSegments, hd1, hdm, Bind.bind, Except.bind]⟩

theorem minDist_ok (seg : Segment) (segs : List Segment) (hne : segs ≠ [])
    (hnd : ∀ sg ∈ segs, nondegenerate sg) :
    ∃ d, min_distance_from_segment seg segs = .ok d :=
  minOver_ok _ segs hne hnd

theorem linearLoop_spec (cfg : Config) (segs : List Segment) (share : ℝ) (dir : Point2D)
    (hne : segs ≠ []) (hnd : ∀ sg ∈ segs, nondegenerate sg) :
    ∀ (n : ℕ) (lp : Point2D) (s : Str),
      ∃ acc cmds, linearLoop cfg segs share dir n lp (some s) =
          .ok (stepPos lp dir n, some acc, cmds) ∧
        cmds.map Prod.fst = (List.range n).map (fun j => stepPos lp dir (j + 1)) ∧
        ∃ t, acc = s ++ t := by
  intro n
  induction n with
  | zero =>
      intro lp s
      refine ⟨s, [], ?_, by simp, [], by simp⟩
      have h0 : stepPos lp dir 0 = lp := by simp [stepPos]
      rw [h0]
      simp [linearLoop]
  | succ n ih =>
      intro lp s
      obtain ⟨d, hd⟩ := minDist_ok ⟨lp, ⟨lp.x + dir.x, lp.y + dir.y⟩⟩ segs hne hnd
      obtain ⟨acc, cmds, hrun, hmap, t, ht⟩ := ih ⟨lp.x + dir.x, lp.y + dir.y⟩
        (s ++ get_extrusion_command (lp.x + dir.x) (lp.y + dir.y)
          (if d < cfg.gradient_thickness then
            share * mapRange (0, cfg.gradient_thickness)
              (cfg.max_flow / 100, cfg.min_flow / 100) d
          else share * cfg.min_flow / 100) ++ str ("\n"))
      have hstep : stepPos ⟨lp.x + dir.x, lp.y + dir.y⟩ dir n = stepPos lp dir (n + 1) := by
        simp only [stepPos, Point2D.mk.injEq]
        constructor
        · push_cast; ring
        · push_cast; ring
      refine ⟨acc, (⟨lp.x + dir.x, lp.y + dir.y⟩,
        if d < cfg.gradient_thickness then
          share * mapRange (0, cfg.gradient_thickness)
            (cfg.max_flow / 100, cfg.min_flow / 100) d
        else share * cfg.min_flow / 100) :: cmds, ?_, ?_, ?_⟩
      · rw [show linearLoop cfg segs share dir (n + 1) lp (some s) =
          linearLoop cfg segs share dir n ⟨lp.x + dir.x, lp.y + dir.y⟩
            (some (s ++ get_extrusion_command (lp.x + dir.x) (lp.y + dir.y)
              (if d < cfg.gradient_thickness then
                share * mapRange (0, cfg.gradient_thickness)
                  (cfg.max_flow / 100, cfg.min_flow / 100) d
              else share * cfg.min_flow / 100) ++ str ("\n"))) >>=
            (fun r => .ok (r.1, r.2.1, (⟨lp.x + dir.x, lp.y + dir.y⟩,
              if d < cfg.gradient_thickness then
                share * mapRange (0, cfg.gradient_thickness)
                  (cfg.max_flow / 100, cfg.min_flow / 100) d
              else share * cfg.min_flow / 100) :: r.2.2)) from by
            simp [linearLoop, hd, Bind.bind, Except.bind]]
        rw [hrun]
        simp [Bind.bind, Except.bind, hstep]
      · simp only [List.map_cons, hmap, List.range_succ_eq_map, List.map_map, List.cons.injEq]
        constructor
        · simp [stepPos]
        · apply List.map_congr_left
          intro j hj
          simp only [Function.comp_apply, stepPos, Point2D.mk.injEq]
          constructor
          · push_cast; ring
          · push_cast; ring
      · refine ⟨get_extrusion_command (lp.x + dir.x) (lp.y + dir.y)
          (if d < cfg.gradient_thickness then
            share * mapRange (0, cfg.gradient_thickness)
              (cfg.max_flow / 100, cfg.min_flow / 100) d
          else share * cfg.min_flow / 100) ++ str ("\n") ++ t, ?_⟩
        rw [ht]
        simp [List.append_assoc]

theorem gpd_def (p q : Point2D) :
    get_points_distance p q = Real.sqrt ((p.x - q.x) ^ 2 + (p.y - q.y) ^ 2) := rfl

theorem sqrt_scaled (t a b : ℝ) (ht : 0 ≤ t) :
    Real.sqrt ((t * a) ^ 2 + (t * b) ^ 2) = t * Real.sqrt (a ^ 2 + b ^ 2) := by
  rw [show (t * a) ^ 2 + (t * b) ^ 2 = t ^ 2 * (a ^ 2 + b ^ 2) from by ring,
    Real.sqrt_mul (sq_nonneg t), Real.sqrt_sq ht]

noncomputable def gdlOf (cfg : Config) : ℝ :=
  cfg.gradient_thickness / cfg.gradient_discretization

noncomputable def dirOf (cfg : Config) (lp cp : Point2D) : Point2D :=
  ⟨(cp.x - lp.x) / get_points_distance lp cp * gdlOf cfg,
   (cp.y - lp.y) / get_points_distance lp cp * gdlOf cfg⟩

noncomputable def nStepsOf (cfg : Config) (lp cp : Point2D) : ℕ :=
  (⌊get_points_distance lp cp / gdlOf cfg⌋).toNat

theorem len_ab (lp cp : Point2D) :
    Real.sqrt ((cp.x - lp.x) ^ 2 + (cp.y - lp.y) ^ 2) = get_points_distance lp cp := by
  rw [gpd_def]
  exact congrArg Real.sqrt (by ring)

theorem step_advance (cfg : Config) (lp cp : Point2D)
    (hgdl : 0 < gdlOf cfg) (hlen : 0 < get_points_distance lp cp) (k : ℕ) :
    get_points_distance (stepPos lp (dirOf cfg lp cp) k) (stepPos lp (dirOf cfg lp cp) (k + 1))
      = gdlOf cfg := by
  rw [gpd_def]
  have harg : ((stepPos lp (dirOf cfg lp cp) k).x - (stepPos lp (dirOf cfg lp cp) (k + 1)).x) ^ 2
      + ((stepPos lp (dirOf cfg lp cp) k).y - (stepPos lp (dirOf cfg lp cp) (k + 1)).y) ^ 2 =
      (gdlOf cfg / get_points_distance lp cp * (cp.x - lp.x)) ^ 2 +
      (gdlOf cfg / get_points_distance lp cp * (cp.y - lp.y)) ^ 2 := by
    simp only [stepPos, dirOf]
    push_cast
    ring
  rw [harg, sqrt_scaled _ _ _ (by positivity), len_ab]
  field_simp

theorem remaining_distance (cfg : Config) (lp cp : Point2D)
    (hlen : 0 < get_points_distance lp cp)
    (hle : (nStepsOf cfg lp cp : ℝ) * gdlOf cfg ≤ get_points_distance lp cp) :
    get_points_distance (stepPos lp (dirOf cfg lp cp) (nStepsOf cfg lp cp)) cp =
      get_points_distance lp cp - (nStepsOf cfg lp cp : ℝ) * gdlOf cfg := by
  have hu : (0 : ℝ) ≤ (get_points_distance lp cp - (nStepsOf cfg lp cp : ℝ) * gdlOf cfg) /
      get_points_distance lp cp := div_nonneg (by linarith) hlen.le
  rw [gpd_def]
  have harg : ((stepPos lp (dirOf cfg lp cp) (nStepsOf cfg lp cp)).x - cp.x) ^ 2 +
      ((stepPos lp (dirOf cfg lp cp) (nStepsOf cfg lp cp)).y - cp.y) ^ 2 =
      ((get_points_distance lp cp - (nStepsOf cfg lp cp : ℝ) * gdlOf cfg) /
        get_points_distance lp cp * (cp.x - lp.x)) ^ 2 +
      ((get_points_distance lp cp - (nStepsOf cfg lp cp : ℝ) * gdlOf cfg) /
        get_points_distance lp cp * (cp.y - lp.y)) ^ 2 := by
    simp only [stepPos, dirOf]
    field_simp
    ring
  rw [harg, sqrt_scaled _ _ _ hu, len_ab]
  field_simp

set_option maxHeartbeats 1000000 in
/-- C1: for LINEAR topology with segmentSteps >= 2 the rewrite succeeds and emits
floor(segmentSteps) sub-segment extrusion commands, each advancing one gradient step of
length gradient_thickness/gradient_discretization along the move direction, followed by one
final command to the true target whose extrusion is the remaining-distance ratio times the
original extrusion times max_flow/100; the emitted step lengths plus the tail distance sum
to the original move length. -/
theorem C1_linear_subdivision (cfg : Config) (st : MState) (lines : List Str) (cur : Str)
    (cp : Point2D) (eD : Dec) (segs : List Segment) (s0 : Str)
    (hscan : scanE (splitChar ' ' cur) = .ok (some eD))
    (hperim : st.perimeterSegments = some segs)
    (hbase : st.new_Line = some s0)
    (hne : segs ≠ [])
    (hnd : ∀ sg ∈ segs, nondegenerate sg)
    (hgdl : 0 < gdlOf cfg)
    (hsteps : 2 ≤ get_points_distance st.lastPosition cp / gdlOf cfg) :
    ∃ (acc : Str) (cmds : List (Point2D × ℝ)),
      linearCase cfg st lines cur cp = .ok
        ({st with
          new_Line := some (acc ++ get_extrusion_command cp.x cp.y
            (get_points_distance (stepPos st.lastPosition (dirOf cfg st.lastPosition cp)
              (nStepsOf cfg st.lastPosition cp)) cp / get_points_distance st.lastPosition cp *
              decToR eD * cfg.max_flow / 100)),
          lastPosition := stepPos st.lastPosition (dirOf cfg st.lastPosition cp)
            (nStepsOf cfg st.lastPosition cp)},
         setByContent lines cur (acc ++ get_extrusion_command cp.x cp.y
            (get_points_distance (stepPos st.lastPosition (dirOf cfg st.lastPosition cp)
              (nStepsOf cfg st.lastPosition cp)) cp / get_points_distance st.lastPosition cp *
              decToR eD * cfg.max_flow / 100))) ∧
      (∃ t, acc = s0 ++ t) ∧
      cmds.length = nStepsOf cfg st.lastPosition cp ∧
      2 ≤ nStepsOf cfg st.lastPosition cp ∧
      cmds.map Prod.fst = (List.range (nStepsOf cfg st.lastPosition cp)).map
        (fun j => stepPos st.lastPosition (dirOf cfg st.lastPosition cp) (j + 1)) ∧
      (∀ k : ℕ, get_points_distance (stepPos st.lastPosition (dirOf cfg st.lastPosition cp) k)
        (stepPos st.lastPosition (dirOf cfg st.lastPosition cp) (k + 1)) = gdlOf cfg) ∧
      (nStepsOf cfg st.lastPosition cp : ℝ) * gdlOf cfg +
        get_points_distance (stepPos st.lastPosition (dirOf cfg st.lastPosition cp)
          (nStepsOf cfg st.lastPosition cp)) cp = get_points_distance st.lastPosition cp := by
  have hsteps2 : (2 : ℝ) ≤ get_points_distance st.lastPosition cp /
      (cfg.gradient_thickness / cfg.gradient_discretization) := by
    simpa [gdlOf] using hsteps
  have hgdl2 : (0 : ℝ) < cfg.gradient_thickness / cfg.gradient_discretization := by
    simpa [gdlOf] using hgdl
  have hlen : 0 < get_points_distance st.lastPosition cp := by
    have h2 : 2 * gdlOf cfg ≤ get_points_distance st.lastPosition cp :=
      (le_div_iff₀ hgdl).mp hsteps
    nlinarith [hgdl]
  have hfl2 : (2 : ℤ) ≤ ⌊get_points_distance st.lastPosition cp / gdlOf cfg⌋ :=
    Int.le_floor.mpr (by exact_mod_cast hsteps)
  have hn2 : 2 ≤ nStepsOf cfg st.lastPosition cp := by
    simp only [nStepsOf]
    omega
  have hcast : ((nStepsOf cfg st.lastPosition cp : ℝ)) =
      ((⌊get_points_distance st.lastPosition cp / gdlOf cfg⌋ : ℤ) : ℝ) := by
    have h0 : (0 : ℤ) ≤ ⌊get_points_distance st.lastPosition cp / gdlOf cfg⌋ := by omega
    simp only [nStepsOf]
    exact_mod_cast Int.toNat_of_nonneg h0
  have hnle : (nStepsOf cfg st.lastPosition cp : ℝ) * gdlOf cfg ≤
      get_points_distance st.lastPosition cp := by
    rw [hcast]
    exact (le_div_iff₀ hgdl).mp (Int.floor_le _)
  have hc1 : (cfg.gradient_thickness / cfg.gradient_discretization = 0) = False :=
    eq_false (ne_of_gt hgdl2)
  have hc2 : (get_points_distance st.lastPosition cp /
      (cfg.gradient_thickness / cfg.gradient_discretization) = 0) = False :=
    eq_false (ne_of_gt (lt_of_lt_of_le zero_lt_two hsteps2))
  have hc3 : (2 ≤ get_points_distance st.lastPosition cp /
      (cfg.gradient_thickness / cfg.gradient_discretization)) = True := eq_true hsteps2
  obtain ⟨acc, cmds, hrun, hmap, t, ht⟩ := linearLoop_spec cfg segs
    (decToR eD / (get_points_distance st.lastPosition cp /
      (cfg.gradient_thickness / cfg.gradient_discretization)))
    ⟨(cp.x - st.lastPosition.x) / get_points_distance st.lastPosition cp *
        (cfg.gradient_thickness / cfg.gradient_discretization),
      (cp.y - st.lastPosition.y) / get_points_distance st.lastPosition cp *
        (cfg.gradient_thickness / cfg.gradient_discretization)⟩ hne hnd
    ((⌊get_points_distance st.lastPosition cp /
      (cfg.gradient_thickness / cfg.gradient_discretization)⌋).toNat) st.lastPosition s0
  refine ⟨acc, cmds, ?_, ⟨t, ht⟩, ?_, hn2, ?_, ?_, ?_⟩
  · simp only [linearCase, hscan, hperim, hbase, hc1, hc2, hc3, if_false, if_true,
      Bind.bind, Except.bind, hrun, dirOf, gdlOf, nStepsOf]
  · have := congrArg List.length hmap
    simpa [nStepsOf, gdlOf] using this
  · simpa [dirOf, gdlOf, nStepsOf] using hmap
  · intro k
    exact step_advance cfg st.lastPosition cp hgdl hlen k
  · rw [remaining_distance cfg st.lastPosition cp hlen hnle]
    ring

def c1St : MState :=
  ⟨Sect.INFILL, ⟨0, 5⟩, some [⟨⟨0, 10⟩, ⟨0, 0⟩⟩], some (str ("G1 F1200\n"))⟩

theorem c1_len : get_points_distance c1St.lastPosition ⟨5, 5⟩ = 5 := by
  rw [gpd_def]
  have h : ((c1St.lastPosition.x - 5) ^ 2 + (c1St.lastPosition.y - 5) ^ 2 : ℝ) = 5 ^ 2 := by
    simp only [c1St]
    norm_num
  rw [h, Real.sqrt_sq (by norm_num)]

/-- Witness for C1 at a concrete instance: a 5 mm move with gradient step 1.5 mm. -/
theorem C1_witness :
    ∃ (acc : Str) (cmds : List (Point2D × ℝ)),
      linearCase cfgLinear c1St [str ("G1 X5 Y5 E1")] (str ("G1 X5 Y5 E1")) ⟨5, 5⟩ = .ok
        ({c1St with
          new_Line := some (acc ++ get_extrusion_command (5 : ℝ) (5 : ℝ)
            (get_points_distance (stepPos c1St.lastPosition
              (dirOf cfgLinear c1St.lastPosition ⟨5, 5⟩)
              (nStepsOf cfgLinear c1St.lastPosition ⟨5, 5⟩)) ⟨5, 5⟩ /
              get_points_distance c1St.lastPosition ⟨5, 5⟩ *
              decToR ((1 : ℤ), (0 : ℕ)) * cfgLinear.max_flow / 100)),
          lastPosition := stepPos c1St.lastPosition
            (dirOf cfgLinear c1St.lastPosition ⟨5, 5⟩)
            (nStepsOf cfgLinear c1St.lastPosition ⟨5, 5⟩)},
         setByContent [str ("G1 X5 Y5 E1")] (str ("G1 X5 Y5 E1"))
           (acc ++ get_extrusion_command (5 : ℝ) (5 : ℝ)
            (get_points_distance (stepPos c1St.lastPosition
              (dirOf cfgLinear c1St.lastPosition ⟨5, 5⟩)
              (nStepsOf cfgLinear c1St.lastPosition ⟨5, 5⟩)) ⟨5, 5⟩ /
              get_points_distance c1St.lastPosition ⟨5, 5⟩ *
              decToR ((1 : ℤ), (0 : ℕ)) * cfgLinear.max_flow / 100))) ∧
      (∃ t, acc = str ("G1 F1200\n") ++ t) ∧
      cmds.length = nStepsOf cfgLinear c1St.lastPosition ⟨5, 5⟩ ∧
      2 ≤ nStepsOf cfgLinear c1St.lastPosition ⟨5, 5⟩ ∧
      cmds.map Prod.fst = (List.range (nStepsOf cfgLinear c1St.lastPosition ⟨5, 5⟩)).map
        (fun j => stepPos c1St.lastPosition (dirOf cfgLinear c1St.lastPosition ⟨5, 5⟩) (j + 1)) ∧
      (∀ k : ℕ, get_points_distance
        (stepPos c1St.lastPosition (dirOf cfgLinear c1St.lastPosition ⟨5, 5⟩) k)
        (stepPos c1St.lastPosition (dirOf cfgLinear c1St.lastPosition ⟨5, 5⟩) (k + 1)) =
        gdlOf cfgLinear) ∧
      (nStepsOf cfgLinear c1St.lastPosition ⟨5, 5⟩ : ℝ) * gdlOf cfgLinear +
        get_points_distance (stepPos c1St.lastPosition
          (dirOf cfgLinear c1St.lastPosition ⟨5, 5⟩)
          (nStepsOf cfgLinear c1St.lastPosition ⟨5, 5⟩)) ⟨5, 5⟩ =
        get_points_distance c1St.lastPosition ⟨5, 5⟩ :=
  C1_linear_subdivision cfgLinear c1St [str ("G1 X5 Y5 E1")] (str ("G1 X5 Y5 E1")) ⟨5, 5⟩
    ((1 : ℤ), (0 : ℕ)) [⟨⟨0, 10⟩, ⟨0, 0⟩⟩] (str ("G1 F1200\n"))
    (by decide) rfl rfl (List.cons_ne_nil _ _)
    (by
      intro sg hsg
      rw [List.mem_singleton] at hsg
      subst hsg
      simp only [nondegenerate]
      norm_num)
    (by
      rw [gdlOf]
      norm_num [cfgLinear])
    (by
      rw [c1_len, gdlOf]
      norm_num [cfgLinear])



/-! Reading the speed accumulator before assignment (claim C10). -/

theorem smallRebuild_prefix (m : ℝ) (elems : List Str) :
    ∀ (base out : Str), smallRebuild m elems base = .ok out → ∃ rest, out = base ++ rest := by
  induction elems with
  | nil =>
      intro base out h
      refine ⟨[], ?_⟩
      simp only [smallRebuild] at h
      cases h
      simp
  | cons e rest ih =>
      intro base out h
      by_cases hE : inStr ("E") e = true
      · simp only [smallRebuild, hE, if_true] at h
        match hp : pyFloat e.tail with
        | none => rw [hp] at h; cases h
        | some v =>
            rw [hp] at h
            obtain ⟨r2, hr2⟩ := ih _ _ h
            exact ⟨str ("E") ++ pyRoundStr (decToR v * m) 5 ++ r2, by
              rw [hr2]; simp [List.append_assoc]⟩
      · rw [Bool.not_eq_true] at hE
        simp only [smallRebuild, hE, Bool.false_eq_true, if_false] at h
        obtain ⟨r2, hr2⟩ := ih _ _ h
        exact ⟨e ++ str (" ") ++ r2, by rw [hr2]; simp [List.append_assoc]⟩

set_option maxHeartbeats 1000000 in
/-- C10: inside an infill section, an extrusion move reached while the speed-command
accumulator `new_Line` is still unassigned makes the rewrite fail with the unbound-local
error instead of emitting output, both for LINEAR with segmentSteps >= 2 and for
SMALL_SEGMENTS (once the midpoint distance is computed); conversely, when the accumulator
holds a recorded speed command, that content is prepended to the rewritten extrusion
line in both branches. -/
theorem C10_unbound_speed_accumulator :
    (∀ (cfg : Config) (st : MState) (lines : List Str) (cur : Str) (cp : Point2D) (eD : Dec)
        (segs : List Segment),
      scanE (splitChar ' ' cur) = .ok (some eD) →
      st.perimeterSegments = some segs →
      st.new_Line = none →
      segs ≠ [] →
      (∀ sg ∈ segs, nondegenerate sg) →
      0 < gdlOf cfg →
      2 ≤ get_points_distance st.lastPosition cp / gdlOf cfg →
      linearCase cfg st lines cur cp = .error .unboundLocal) ∧
    (∀ (cfg : Config) (st : MState) (lines : List Str) (cur : Str) (cp : Point2D)
        (segs : List Segment) (d : ℝ),
      st.perimeterSegments = some segs →
      min_distance_from_segment ⟨st.lastPosition, cp⟩ segs = .ok d →
      st.new_Line = none →
      smallCase cfg st lines cur cp = .error .unboundLocal) ∧
    (∀ (cfg : Config) (st : MState) (lines : List Str) (cur : Str) (cp : Point2D) (eD : Dec)
        (segs : List Segment) (s0 : Str),
      scanE (splitChar ' ' cur) = .ok (some eD) →
      st.perimeterSegments = some segs →
      st.new_Line = some s0 →
      segs ≠ [] →
      (∀ sg ∈ segs, nondegenerate sg) →
      0 < gdlOf cfg →
      2 ≤ get_points_distance st.lastPosition cp / gdlOf cfg →
      ∃ (st2 : MState) (rest : Str), linearCase cfg st lines cur cp =
        .ok (st2, setByContent lines cur (s0 ++ rest))) ∧
    (∀ (cfg : Config) (st : MState) (lines : List Str) (cur : Str) (cp : Point2D)
        (segs : List Segment) (d : ℝ) (s0 out : Str),
      st.perimeterSegments = some segs →
      min_distance_from_segment ⟨st.lastPosition, cp⟩ segs = .ok d →
      d < cfg.gradient_thickness →
      st.new_Line = some s0 →
      smallRebuild (mapRange (0, cfg.gradient_thickness) (cfg.max_flow / 100, cfg.min_flow / 100) d)
        (splitChar ' ' cur) s0 = .ok out →
      ∃ rest, out = s0 ++ rest ∧ smallCase cfg st lines cur cp =
        .ok (st, setByContent lines cur (s0 ++ rest ++ str ("\n")))) := by
  refine ⟨?_, ?_, ?_, ?_⟩
  · intro cfg st lines cur cp eD segs hscan hperim hnone hne hnd hgdl hsteps
    have hsteps2 : (2 : ℝ) ≤ get_points_distance st.lastPosition cp /
        (cfg.gradient_thickness / cfg.gradient_discretization) := by
      simpa [gdlOf] using hsteps
    have hgdl2 : (0 : ℝ) < cfg.gradient_thickness / cfg.gradient_discretization := by
      simpa [gdlOf] using hgdl
    have hc1 : (cfg.gradient_thickness / cfg.gradient_discretization = 0) = False :=
      eq_false (ne_of_gt hgdl2)
    have hc2 : (get_points_distance st.lastPosition cp /
        (cfg.gradient_thickness / cfg.gradient_discretization) = 0) = False :=
      eq_false (ne_of_gt (lt_of_lt_of_le zero_lt_two hsteps2))
    have hc3 : (2 ≤ get_points_distance st.lastPosition cp /
        (cfg.gradient_thickness / cfg.gradient_discretization)) = True := eq_true hsteps2
    have hfl2 : (2 : ℤ) ≤ ⌊get_points_distance st.lastPosition cp / gdlOf cfg⌋ :=
      Int.le_floor.mpr (by exact_mod_cast hsteps)
    obtain ⟨m, hm⟩ : ∃ m : ℕ, (⌊get_points_distance st.lastPosition cp /
        (cfg.gradient_thickness / cfg.gradient_discretization)⌋).toNat = m + 1 := by
      refine ⟨(⌊get_points_distance st.lastPosition cp /
        (cfg.gradient_thickness / cfg.gradient_discretization)⌋).toNat - 1, ?_⟩
      have : (2 : ℤ) ≤ ⌊get_points_distance st.lastPosition cp /
          (cfg.gradient_thickness / cfg.gradient_discretization)⌋ := by
        simpa [gdlOf] using hfl2
      omega
    obtain ⟨d1, hd1⟩ := minDist_ok ⟨st.lastPosition,
      ⟨st.lastPosition.x + ((cp.x - st.lastPosition.x) / get_points_distance st.lastPosition cp *
          (cfg.gradient_thickness / cfg.gradient_discretization)),
        st.lastPosition.y + ((cp.y - st.lastPosition.y) / get_points_distance st.lastPosition cp *
          (cfg.gradient_thickness / cfg.gradient_discretization))⟩⟩ segs hne hnd
    simp only [linearCase, hscan, hperim, hnone, hc1, hc2, hc3, if_false, if_true,
      Bind.bind, Except.bind, hm, linearLoop, hd1]
  · intro cfg st lines cur cp segs d hperim hmin hnone
    simp [smallCase, hperim, hmin, hnone, Bind.bind, Except.bind]
  · intro cfg st lines cur cp eD segs s0 hscan hperim hbase hne hnd hgdl hsteps
    have hsteps2 : (2 : ℝ) ≤ get_points_distance st.lastPosition cp /
        (cfg.gradient_thickness / cfg.gradient_discretization) := by
      simpa [gdlOf] using hsteps
    have hgdl2 : (0 : ℝ) < cfg.gradient_thickness / cfg.gradient_discretization := by
      simpa [gdlOf] using hgdl
    have hc1 : (cfg.gradient_thickness / cfg.gradient_discretization = 0) = False :=
      eq_false (ne_of_gt hgdl2)
    have hc2 : (get_points_distance st.lastPosition cp /
        (cfg.gradient_thickness / cfg.gradient_discretization) = 0) = False :=
      eq_false (ne_of_gt (lt_of_lt_of_le zero_lt_two hsteps2))
    have hc3 : (2 ≤ get_points_distance st.lastPosition cp /
        (cfg.gradient_thickness / cfg.gradient_discretization)) = True := eq_true hsteps2
    obtain ⟨acc, cmds, hrun, hmap, t, ht⟩ := linearLoop_spec cfg segs
      (decToR eD / (get_points_distance st.lastPosition cp /
        (cfg.gradient_thickness / cfg.gradient_discretization)))
      ⟨(cp.x - st.lastPosition.x) / get_points_distance st.lastPosition cp *
          (cfg.gradient_thickness / cfg.gradient_discretization),
        (cp.y - st.lastPosition.y) / get_points_distance st.lastPosition cp *
          (cfg.gradient_thickness / cfg.gradient_discretization)⟩ hne hnd
      ((⌊get_points_distance st.lastPosition cp /
        (cfg.gradient_thickness / cfg.gradient_discretization)⌋).toNat) st.lastPosition s0
    refine ⟨{st with
        new_Line := some (s0 ++ (t ++ get_extrusion_command cp.x cp.y
          (get_points_distance (stepPos st.lastPosition (dirOf cfg st.lastPosition cp)
            (nStepsOf cfg st.lastPosition cp)) cp / get_points_distance st.lastPosition cp *
            decToR eD * cfg.max_flow / 100))),
        lastPosition := stepPos st.lastPosition (dirOf cfg st.lastPosition cp)
          (nStepsOf cfg st.lastPosition cp)},
      t ++ get_extrusion_command cp.x cp.y
        (get_points_distance (stepPos st.lastPosition (dirOf cfg st.lastPosition cp)
          (nStepsOf cfg st.lastPosition cp)) cp / get_points_distance st.lastPosition cp *
          decToR eD * cfg.max_flow / 100), ?_⟩
    simp only [linearCase, hscan, hperim, hbase, hc1, hc2, hc3, if_false, if_true,
      Bind.bind, Except.bind, hrun, dirOf, gdlOf, nStepsOf, ht, List.append_assoc]
  · intro cfg st lines cur cp segs d s0 out hperim hmin hlt hbase hout
    obtain ⟨rest, hrest⟩ := smallRebuild_prefix
      (mapRange (0, cfg.gradient_thickness) (cfg.max_flow / 100, cfg.min_flow / 100) d)
      (splitChar ' ' cur) s0 out hout
    refine ⟨rest, hrest, ?_⟩
    simp only [smallCase, hperim, hmin, hbase, hlt, if_true, Bind.bind, Except.bind, hout,
      hrest, List.append_assoc]

/-- Witness for C10: a LINEAR extrusion move processed with `new_Line = none`
aborts with the unbound-local error. -/
theorem C10_witness :
    linearCase cfgLinear ⟨Sect.INFILL, ⟨0, 5⟩, some [⟨⟨0, 10⟩, ⟨0, 0⟩⟩], none⟩
      [str ("G1 X5 Y5 E1")] (str ("G1 X5 Y5 E1")) ⟨5, 5⟩ = .error .unboundLocal :=
  C10_unbound_speed_accumulator.1 cfgLinear ⟨Sect.INFILL, ⟨0, 5⟩, some [⟨⟨0, 10⟩, ⟨0, 0⟩⟩], none⟩
    [str ("G1 X5 Y5 E1")] (str ("G1 X5 Y5 E1")) ⟨5, 5⟩ ((1 : ℤ), (0 : ℕ))
    [⟨⟨0, 10⟩, ⟨0, 0⟩⟩] (by decide) rfl rfl (List.cons_ne_nil _ _)
    (by
      intro sg hsg
      rw [List.mem_singleton] at hsg
      subst hsg
      simp only [nondegenerate]
      norm_num)
    (by
      rw [gdlOf]
      norm_num [cfgLinear])
    (by
      show (2 : ℝ) ≤ get_points_distance ⟨0, 5⟩ ⟨5, 5⟩ / gdlOf cfgLinear
      have h5 : get_points_distance (⟨0, 5⟩ : Point2D) ⟨5, 5⟩ = 5 := by
        rw [gpd_def]
        rw [show (((⟨0, 5⟩ : Point2D).x - (⟨5, 5⟩ : Point2D).x) ^ 2 +
          ((⟨0, 5⟩ : Point2D).y - (⟨5, 5⟩ : Point2D).y) ^ 2 : ℝ) = 5 ^ 2 from by norm_num]
        exact Real.sqrt_sq (by norm_num)
      rw [h5, gdlOf]
      norm_num [cfgLinear])



/-! Content-based line indexing (claim C4). -/

theorem idxOf_get_nodup (lines : List Str) (hnd : lines.Nodup) :
    ∀ (k : ℕ) (hk : k < lines.length), idxOf (lines.get ⟨k, hk⟩) lines = k := by
  induction lines with
  | nil => intro k hk; cases hk
  | cons l rest ih =>
      intro k hk
      match k with
      | 0 => simp [idxOf]
      | j + 1 =>
          have hj : j < rest.length := by simpa using hk
          have hmem : rest.get ⟨j, hj⟩ ∈ rest := List.get_mem rest j hj
          have hne : l ≠ rest.get ⟨j, hj⟩ := by
            intro he
            exact (List.nodup_cons.mp hnd).1 (he ▸ hmem)
          have hget : (l :: rest).get ⟨j + 1, hk⟩ = rest.get ⟨j, hj⟩ := rfl
          rw [hget]
          simp only [idxOf]
          rw [if_neg hne, ih (List.nodup_cons.mp hnd).2 j hj]

/-- C4 (amended): line replacement is indexed by CONTENT, not position:
`lines[lines.index(currentLine)] = new` overwrites the FIRST entry equal to the
processed line (part 1 characterizes the first-match index); it coincides with the
processed line's own position exactly when the layer's lines are pairwise distinct
(part 2). -/
theorem C4_content_indexing :
    (∀ (lines : List Str) (cur : Str), cur ∈ lines →
      idxOf cur lines < lines.length ∧
      lines.getD (idxOf cur lines) [] = cur ∧
      ∀ j < idxOf cur lines, lines.getD j [] ≠ cur) ∧
    (∀ (lines : List Str) (new : Str) (k : ℕ) (hk : k < lines.length),
      lines.Nodup → setByContent lines (lines.get ⟨k, hk⟩) new = lines.set k new) := by
  constructor
  · intro lines
    induction lines with
    | nil => intro cur h; cases h
    | cons l rest ih =>
        intro cur hmem
        by_cases he : l = cur
        · subst he
          refine ⟨by simp [idxOf], by simp [idxOf], ?_⟩
          intro j hj
          simp [idxOf] at hj
        · have hmem2 : cur ∈ rest := by
            rcases List.mem_cons.mp hmem with h | h
            · exact absurd h.symm he
            · exact h
          obtain ⟨h1, h2, h3⟩ := ih cur hmem2
          refine ⟨?_, ?_, ?_⟩
          · simp only [idxOf, if_neg he, List.length_cons]
            omega
          · simpa [idxOf, if_neg he] using h2
          · intro j hj
            match j with
            | 0 => simpa [idxOf] using he
            | j + 1 =>
                simp only [idxOf, if_neg he] at hj
                have := h3 j (by omega)
                simpa [idxOf] using this
  · intro lines new k hk hnd
    rw [setByContent, idxOf_get_nodup lines hnd k hk]

/-- Witness for C4: on a duplicate-free two-line layer the first-match index is the
line's own position and replacement happens in place. -/
theorem C4_witness :
    (idxOf (str ("G1 X2")) [str ("G1 X1"), str ("G1 X2")] <
        [str ("G1 X1"), str ("G1 X2")].length ∧
      [str ("G1 X1"), str ("G1 X2")].getD (idxOf (str ("G1 X2"))
        [str ("G1 X1"), str ("G1 X2")]) [] = str ("G1 X2") ∧
      ∀ j < idxOf (str ("G1 X2")) [str ("G1 X1"), str ("G1 X2")],
        [str ("G1 X1"), str ("G1 X2")].getD j [] ≠ str ("G1 X2")) ∧
    setByContent [str ("G1 X1"), str ("G1 X2")]
        ([str ("G1 X1"), str ("G1 X2")].get ⟨1, by decide⟩) (str ("G1 X9")) =
      [str ("G1 X1"), str ("G1 X2")].set 1 (str ("G1 X9")) :=
  ⟨C4_content_indexing.1 [str ("G1 X1"), str ("G1 X2")] (str ("G1 X2")) (by decide),
   C4_content_indexing.2 [str ("G1 X1"), str ("G1 X2")] (str ("G1 X9")) 1 (by decide) (by decide)⟩

/-- Counterexample to claim C4 as stated: processing the infill move at index 1 of a
layer whose index-0 line has identical text rewrites index 0 (the first content match)
and leaves index 1 unchanged, so duplicate identical lines are NOT each rewritten in
place at their own position. -/
theorem C4_counterexample :
    stepLine cfgGyroid
      (⟨.INFILL, ⟨2, 5⟩, some [⟨⟨0, 10⟩, ⟨0, 0⟩⟩], some (str ("G1 F1200\n"))⟩,
        [str ("G1 X4 Y5 E1"), str ("G1 X4 Y5 E1")]) 1 =
      .ok (⟨.INFILL, ⟨4, 5⟩, some [⟨⟨0, 10⟩, ⟨0, 0⟩⟩], some (str ("G1 F1200\n"))⟩,
        [str ("G1 F1200\nG1 X4 Y5 E2.0\n"), str ("G1 X4 Y5 E1")]) ∧
    str ("G1 F1200\nG1 X4 Y5 E2.0\n") ≠ str ("G1 X4 Y5 E1") := by
  refine ⟨?_, by decide⟩
  have hxyq : getXYq (str ("G1 X4 Y5 E1")) = .ok ((4, 0), (5, 0)) := by decide
  have hxy : getXY (str ("G1 X4 Y5 E1")) = .ok ⟨4, 5⟩ := by
    simp only [getXY, hxyq, Except.map]
    norm_num [decToR, Point2D.mk.injEq]
  have hd : min_distance_from_segment ⟨⟨2, 5⟩, ⟨4, 5⟩⟩ [⟨⟨0, 10⟩, ⟨0, 0⟩⟩] = .ok 3 := by
    show minOverSegments ⟨((2 : ℝ) + 4) / 2, ((5 : ℝ) + 5) / 2⟩ [⟨⟨0, 10⟩, ⟨0, 0⟩⟩] = .ok 3
    rw [show minOverSegments ⟨((2 : ℝ) + 4) / 2, ((5 : ℝ) + 5) / 2⟩ [⟨⟨0, 10⟩, ⟨0, 0⟩⟩] =
      dist ⟨⟨0, 10⟩, ⟨0, 0⟩⟩ ⟨((2 : ℝ) + 4) / 2, ((5 : ℝ) + 5) / 2⟩ from rfl]
    rw [show ((2 : ℝ) + 4) / 2 = 3 from by norm_num,
      show ((5 : ℝ) + 5) / 2 = 5 from by norm_num]
    exact dist_wall_rev 3 5 (by norm_num) (by norm_num) (by norm_num)
  have hlt : ((3 : ℝ) < cfgGyroid.gradient_thickness) = True := by norm_num [cfgGyroid]
  have hsplit : splitChar ' ' (str ("G1 X4 Y5 E1")) =
      [str ("G1"), str ("X4"), str ("Y5")] ++ [str ("E1")] := by decide
  have hr := smallRebuild_split
    (mapRange (0, cfgGyroid.gradient_thickness)
      (cfgGyroid.max_flow / 100, cfgGyroid.min_flow / 100) 3)
    [str ("G1"), str ("X4"), str ("Y5")] (str ("E1")) (str ("G1 F1200\n")) (1, 0)
    (by decide) (by decide) (by decide)
  have hm : decToR (1, 0) * mapRange (0, cfgGyroid.gradient_thickness)
      (cfgGyroid.max_flow / 100, cfgGyroid.min_flow / 100) 3 = 2 := by
    norm_num [decToR, mapRange, cfgGyroid]
  have hps : pyRoundStr (decToR (1, 0) * mapRange (0, cfgGyroid.gradient_thickness)
      (cfgGyroid.max_flow / 100, cfgGyroid.min_flow / 100) 3) 5 = str ("2.0") := by
    unfold pyRoundStr
    rw [hm, pyRound_exact 2 5 200000 (by norm_num)]
    decide
  rw [hps] at hr
  have hsc : smallCase cfgGyroid
      ⟨.INFILL, ⟨2, 5⟩, some [⟨⟨0, 10⟩, ⟨0, 0⟩⟩], some (str ("G1 F1200\n"))⟩
      [str ("G1 X4 Y5 E1"), str ("G1 X4 Y5 E1")] (str ("G1 X4 Y5 E1")) ⟨4, 5⟩ =
      .ok (⟨.INFILL, ⟨2, 5⟩, some [⟨⟨0, 10⟩, ⟨0, 0⟩⟩], some (str ("G1 F1200\n"))⟩,
        [str ("G1 F1200\nG1 X4 Y5 E2.0\n"), str ("G1 X4 Y5 E1")]) := by
    have hset : setByContent [str ("G1 X4 Y5 E1"), str ("G1 X4 Y5 E1")] (str ("G1 X4 Y5 E1"))
        (str ("G1 F1200\nG1 X4 Y5 E2.0\n")) =
        [str ("G1 F1200\nG1 X4 Y5 E2.0\n"), str ("G1 X4 Y5 E1")] := by decide
    simp only [smallCase, hd, hlt, if_true, hsplit, hr, Bind.bind, Except.bind,
      List.append_assoc]
    rw [show str ("G1 F1200\n") ++ (joinSp [str ("G1"), str ("X4"), str ("Y5")] ++
      (str ("E") ++ (str ("2.0") ++ str ("\n")))) = str ("G1 F1200\nG1 X4 Y5 E2.0\n") from by
      decide]
    rw [hset]
  have h12 : ((1 : ℕ) = 2) = False := by simp
  have hrw : extrusionRewrite cfgGyroid
      ⟨.INFILL, ⟨2, 5⟩, some [⟨⟨0, 10⟩, ⟨0, 0⟩⟩], some (str ("G1 F1200\n"))⟩
      [str ("G1 X4 Y5 E1"), str ("G1 X4 Y5 E1")] (str ("G1 X4 Y5 E1")) =
      .ok (⟨.INFILL, ⟨2, 5⟩, some [⟨⟨0, 10⟩, ⟨0, 0⟩⟩], some (str ("G1 F1200\n"))⟩,
        [str ("G1 F1200\nG1 X4 Y5 E2.0\n"), str ("G1 X4 Y5 E1")]) := by
    simp only [extrusionRewrite, hxy, cfgGyroid, h12, if_false, if_true, eq_self_iff_true,
      pure, Except.pure, Bind.bind, Except.bind]
    exact hsc
  exact stepLine_infill_extrusion cfgGyroid
    ⟨.INFILL, ⟨2, 5⟩, some [⟨⟨0, 10⟩, ⟨0, 0⟩⟩], some (str ("G1 F1200\n"))⟩
    [str ("G1 X4 Y5 E1"), str ("G1 X4 Y5 E1")] 1 (str ("G1 X4 Y5 E1"))
    ⟨.INFILL, ⟨2, 5⟩, some [⟨⟨0, 10⟩, ⟨0, 0⟩⟩], some (str ("G1 F1200\n"))⟩
    [str ("G1 F1200\nG1 X4 Y5 E2.0\n"), str ("G1 X4 Y5 E1")] ⟨4, 5⟩
    (by decide) (by decide) (by decide) (by decide) (by decide) (by decide) (by decide)
    (by decide) (by decide) (by decide) (by decide) (by decide) rfl hrw hxy



/-! Passthrough frame and content-addressed stores (claim C9). -/

theorem idxOf_getD_mem (cur : Str) : ∀ (lines : List Str), cur ∈ lines →
    lines.getD (idxOf cur lines) [] = cur := by
  intro lines
  induction lines with
  | nil => intro h; cases h
  | cons l rest ih =>
      intro hmem
      by_cases he : l = cur
      · subst he
        simp [idxOf]
      · have hm2 : cur ∈ rest := by
          rcases List.mem_cons.mp hmem with h | h
          · exact absurd h.symm he
          · exact h
        simpa [idxOf, if_neg he] using ih hm2

theorem setByContent_frame (lines : List Str) (cur new : Str) (j : ℕ)
    (hmem : cur ∈ lines) (hne : lines.getD j [] ≠ cur) :
    (setByContent lines cur new).getD j [] = lines.getD j [] := by
  have hj : j ≠ idxOf cur lines := by
    intro he
    exact hne (he ▸ idxOf_getD_mem cur lines hmem)
  rw [setByContent, List.getD_eq_getElem?_getD, List.getD_eq_getElem?_getD,
    List.getElem?_set_ne (Ne.symm hj)]

theorem stepLine_passthrough_outside (cfg : Config) (st : MState) (lines : List Str) (i : ℕ)
    (cur : Str) (hget : lines.getD i [] = cur)
    (h1 : is_begin_layer_line cur = false)
    (h2 : is_begin_inner_wall_line cur = false)
    (h3 : is_end_inner_wall_line cur = false)
    (h4 : is_begin_infill_segment_line cur = false)
    (h5 : is_extrusion_line cur = false)
    (h6 : inStr (" X") cur = false)
    (h7 : st.currentSection ≠ .INFILL) :
    stepLine cfg (st, lines) i = .ok (st, lines) := by
  have h7b : (st.currentSection = Sect.INFILL) = False := eq_false h7
  simp [stepLine, getD_norm lines i cur hget, h1, h2, h3, h4, h5, h6, h7b,
    pure, Except.pure, Bind.bind, Except.bind]

theorem stepLine_passthrough_infill (cfg : Config) (st : MState) (lines : List Str) (i : ℕ)
    (cur : Str) (hget : lines.getD i [] = cur)
    (h1 : is_begin_layer_line cur = false)
    (h2 : is_begin_inner_wall_line cur = false)
    (h3 : is_end_inner_wall_line cur = false)
    (h4 : is_begin_infill_segment_line cur = false)
    (h5 : is_extrusion_line cur = false)
    (hF : inStr ("F") cur = false)
    (hE : inStr ("E") cur = false)
    (hsemi : inStr (";") cur = false)
    (hX : inStr (" X") cur = false)
    (hsec : st.currentSection = .INFILL) :
    stepLine cfg (st, lines) i = .ok (st, lines) := by
  have h5b : (st.currentSection = Sect.INNER_WALL ∧ is_extrusion_line cur = true) = False := by
    simp [h5]
  simp [stepLine, getD_norm lines i cur hget, h1, h2, h3, h4, h5, h5b, hF, hE, hsemi, hX, hsec,
    pure, Except.pure, Bind.bind, Except.bind]

/-- C9 (amended): passthrough is per-rule, not per-position.  A processed line
that is not an infill extrusion move leaves the whole line list unchanged in its own
step: part 1 for lines with none of the special fields while the section is not INFILL,
part 2 for such lines inside INFILL; and part 3: the store of a rewritten line only
touches the first slot whose text equals the processed line, so a slot with different
text is never modified by that store.  (A byte-identical copy of a rewritten infill
move elsewhere in the layer IS overwritten, even outside any section - see the
counterexample.) -/
theorem C9_passthrough_frame :
    (∀ (cfg : Config) (st : MState) (lines : List Str) (i : ℕ) (cur : Str),
      lines.getD i [] = cur →
      is_begin_layer_line cur = false →
      is_begin_inner_wall_line cur = false →
      is_end_inner_wall_line cur = false →
      is_begin_infill_segment_line cur = false →
      is_extrusion_line cur = false →
      inStr (" X") cur = false →
      st.currentSection ≠ .INFILL →
      stepLine cfg (st, lines) i = .ok (st, lines)) ∧
    (∀ (cfg : Config) (st : MState) (lines : List Str) (i : ℕ) (cur : Str),
      lines.getD i [] = cur →
      is_begin_layer_line cur = false →
      is_begin_inner_wall_line cur = false →
      is_end_inner_wall_line cur = false →
      is_begin_infill_segment_line cur = false →
      is_extrusion_line cur = false →
      inStr ("F") cur = false →
      inStr ("E") cur = false →
      inStr (";") cur = false →
      inStr (" X") cur = false →
      st.currentSection = .INFILL →
      stepLine cfg (st, lines) i = .ok (st, lines)) ∧
    (∀ (lines : List Str) (cur new : Str) (j : ℕ), cur ∈ lines →
      lines.getD j [] ≠ cur →
      (setByContent lines cur new).getD j [] = lines.getD j []) :=
  ⟨stepLine_passthrough_outside, stepLine_passthrough_infill, setByContent_frame⟩

/-- Witness for C9: an `M105` line passes through unchanged in and outside the infill
section, and a store aimed at the second list entry leaves the first (different) entry
intact. -/
theorem C9_witness :
    stepLine cfgGyroid (⟨.NOTHING, ⟨0, 0⟩, none, none⟩, [str ("M105")]) 0 =
      .ok (⟨.NOTHING, ⟨0, 0⟩, none, none⟩, [str ("M105")]) ∧
    stepLine cfgGyroid (⟨.INFILL, ⟨0, 0⟩, none, none⟩, [str ("M105")]) 0 =
      .ok (⟨.INFILL, ⟨0, 0⟩, none, none⟩, [str ("M105")]) ∧
    (setByContent [str ("G1 X1"), str ("G1 X2")] (str ("G1 X2")) (str ("G1 X9"))).getD 0 [] =
      [str ("G1 X1"), str ("G1 X2")].getD 0 [] :=
  ⟨C9_passthrough_frame.1 cfgGyroid ⟨.NOTHING, ⟨0, 0⟩, none, none⟩ [str ("M105")] 0 (str ("M105")) rfl
     (by decide) (by decide) (by decide) (by decide) (by decide) (by decide) (by simp),
   C9_passthrough_frame.2.1 cfgGyroid ⟨.INFILL, ⟨0, 0⟩, none, none⟩ [str ("M105")] 0 (str ("M105")) rfl
     (by decide) (by decide) (by decide) (by decide) (by decide) (by decide) (by decide)
     (by decide) (by decide) rfl,
   C9_passthrough_frame.2.2 [str ("G1 X1"), str ("G1 X2")] (str ("G1 X2")) (str ("G1 X9")) 0
     (by decide) (by decide)⟩

theorem stepLine_nothing_extrusion (cfg : Config) (st : MState) (lines : List Str) (i : ℕ)
    (cur : Str) (p : Point2D) (hget : lines.getD i [] = cur)
    (h1 : is_begin_layer_line cur = false)
    (h2 : is_begin_inner_wall_line cur = false)
    (h3 : is_end_inner_wall_line cur = false)
    (h4 : is_begin_infill_segment_line cur = false)
    (h6 : inStr (" X") cur = true)
    (h7 : inStr (" Y") cur = true)
    (h8 : inStr ("G1") cur = true ∨ inStr ("G0") cur = true)
    (hsec : st.currentSection = .NOTHING)
    (hxy : getXY cur = .ok p) :
    stepLine cfg (st, lines) i = .ok ({st with lastPosition := p}, lines) := by
  have hsb : (st.currentSection = Sect.INFILL) = False := by
    rw [hsec]
    simp
  have hsw : (st.currentSection = Sect.INNER_WALL ∧ is_extrusion_line cur = true) = False := by
    rw [hsec]
    simp
  rcases h8 with h8 | h8 <;>
    simp [stepLine, getD_norm lines i cur hget, h1, h2, h3, h4, h6, h7, h8, hsb, hsw, hxy,
      pure, Except.pure, Bind.bind, Except.bind]

def linesC9 : List Str :=
  [str (";LAYER:0"), str ("G0 X0 Y0"), str (";TYPE:WALL-INNER"), str ("G1 X0 Y10 E1"),
   str (";TYPE:WALL-OUTER"), str ("G1 X4 Y5 E1"), str ("G0 X2 Y5"), str (";TYPE:FILL"),
   str ("G1 F1200"), str ("G1 X4 Y5 E1")]

def linesC9out : List Str :=
  [str (";LAYER:0"), str ("G0 X0 Y0"), str (";TYPE:WALL-INNER"), str ("G1 X0 Y10 E1"),
   str (";TYPE:WALL-OUTER"), str ("G1 F1200\nG1 X4 Y5 E2.0\n"), str ("G0 X2 Y5"),
   str (";TYPE:FILL"), str ("G1 F1200"), str ("G1 X4 Y5 E1")]

set_option maxHeartbeats 2000000 in
/-- Counterexample to claim C9 as stated: in this layer the line at index 5 lies outside
any wall or infill section (after `;TYPE:WALL-OUTER`), yet the full line-loop run mutates
it, because the infill move at index 9 has identical text and the rewrite is stored at
the first content-equal slot; the processed line at index 9 itself survives unchanged. -/
theorem C9_counterexample :
    processLines cfgGyroid mstInit linesC9 =
      .ok (⟨.INFILL, ⟨4, 5⟩, some [⟨⟨0, 10⟩, ⟨0, 0⟩⟩], some (str ("G1 F1200\n"))⟩,
        linesC9out) ∧
    linesC9out.getD 5 [] ≠ linesC9.getD 5 [] ∧
    linesC9out.getD 9 [] = linesC9.getD 9 [] := by
  refine ⟨?_, by decide, by decide⟩
  have hxy0 : getXY (str ("G0 X0 Y0")) = .ok ⟨0, 0⟩ := by
    have hq : getXYq (str ("G0 X0 Y0")) = .ok ((0, 0), (0, 0)) := by decide
    simp only [getXY, hq, Except.map]
    norm_num [decToR, Point2D.mk.injEq]
  have hxy3 : getXY (str ("G1 X0 Y10 E1")) = .ok ⟨0, 10⟩ := by
    have hq : getXYq (str ("G1 X0 Y10 E1")) = .ok ((0, 0), (10, 0)) := by decide
    simp only [getXY, hq, Except.map]
    norm_num [decToR, Point2D.mk.injEq]
  have hxy5 : getXY (str ("G1 X4 Y5 E1")) = .ok ⟨4, 5⟩ := by
    have hq : getXYq (str ("G1 X4 Y5 E1")) = .ok ((4, 0), (5, 0)) := by decide
    simp only [getXY, hq, Except.map]
    norm_num [decToR, Point2D.mk.injEq]
  have hxy6 : getXY (str ("G0 X2 Y5")) = .ok ⟨2, 5⟩ := by
    have hq : getXYq (str ("G0 X2 Y5")) = .ok ((2, 0), (5, 0)) := by decide
    simp only [getXY, hq, Except.map]
    norm_num [decToR, Point2D.mk.injEq]
  have step0 : stepLine cfgGyroid (mstInit, linesC9) 0 =
      .ok (⟨.NOTHING, ⟨-10000, -10000⟩, some [], none⟩, linesC9) :=
    stepLine_layer_marker cfgGyroid mstInit linesC9 0 (str (";LAYER:0")) (by decide)
      (by decide) (by decide) (by decide) (by decide) (by decide) (by decide) (by simp [mstInit])
  have step1 : stepLine cfgGyroid (⟨.NOTHING, ⟨-10000, -10000⟩, some [], none⟩, linesC9) 1 =
      .ok (⟨.NOTHING, ⟨0, 0⟩, some [], none⟩, linesC9) :=
    stepLine_travel cfgGyroid ⟨.NOTHING, ⟨-10000, -10000⟩, some [], none⟩ linesC9 1
      (str ("G0 X0 Y0")) ⟨0, 0⟩ (by decide) (by decide) (by decide) (by decide) (by decide)
      (by decide) (by decide) (by decide) (Or.inr (by decide)) (by simp) hxy0
  have step2 : stepLine cfgGyroid (⟨.NOTHING, ⟨0, 0⟩, some [], none⟩, linesC9) 2 =
      .ok (⟨.INNER_WALL, ⟨0, 0⟩, some [], none⟩, linesC9) :=
    stepLine_innerwall_marker cfgGyroid ⟨.NOTHING, ⟨0, 0⟩, some [], none⟩ linesC9 2
      (str (";TYPE:WALL-INNER")) (by decide) (by decide) (by decide) (by decide) (by decide)
      (by decide) (by decide)
  have step3 : stepLine cfgGyroid (⟨.INNER_WALL, ⟨0, 0⟩, some [], none⟩, linesC9) 3 =
      .ok (⟨.INNER_WALL, ⟨0, 10⟩, some [⟨⟨0, 10⟩, ⟨0, 0⟩⟩], none⟩, linesC9) :=
    stepLine_wall_extrusion cfgGyroid ⟨.INNER_WALL, ⟨0, 0⟩, some [], none⟩ linesC9 3
      (str ("G1 X0 Y10 E1")) [] ⟨0, 10⟩ (by decide) (by decide) (by decide) (by decide)
      (by decide) (by decide) (by decide) (by decide) (by decide) rfl rfl hxy3
  have step4 : stepLine cfgGyroid
      (⟨.INNER_WALL, ⟨0, 10⟩, some [⟨⟨0, 10⟩, ⟨0, 0⟩⟩], none⟩, linesC9) 4 =
      .ok (⟨.NOTHING, ⟨0, 10⟩, some [⟨⟨0, 10⟩, ⟨0, 0⟩⟩], none⟩, linesC9) :=
    stepLine_outerwall_marker cfgGyroid ⟨.INNER_WALL, ⟨0, 10⟩, some [⟨⟨0, 10⟩, ⟨0, 0⟩⟩], none⟩
      linesC9 4 (str (";TYPE:WALL-OUTER")) (by decide) (by decide) (by decide) (by decide)
      (by decide) (by decide) (by decide)
  have step5 : stepLine cfgGyroid
      (⟨.NOTHING, ⟨0, 10⟩, some [⟨⟨0, 10⟩, ⟨0, 0⟩⟩], none⟩, linesC9) 5 =
      .ok (⟨.NOTHING, ⟨4, 5⟩, some [⟨⟨0, 10⟩, ⟨0, 0⟩⟩], none⟩, linesC9) :=
    stepLine_nothing_extrusion cfgGyroid ⟨.NOTHING, ⟨0, 10⟩, some [⟨⟨0, 10⟩, ⟨0, 0⟩⟩], none⟩
      linesC9 5 (str ("G1 X4 Y5 E1")) ⟨4, 5⟩ (by decide) (by decide) (by decide) (by decide)
      (by decide) (by decide) (by decide) (Or.inl (by decide)) rfl hxy5
  have step6 : stepLine cfgGyroid
      (⟨.NOTHING, ⟨4, 5⟩, some [⟨⟨0, 10⟩, ⟨0, 0⟩⟩], none⟩, linesC9) 6 =
      .ok (⟨.NOTHING, ⟨2, 5⟩, some [⟨⟨0, 10⟩, ⟨0, 0⟩⟩], none⟩, linesC9) :=
    stepLine_travel cfgGyroid ⟨.NOTHING, ⟨4, 5⟩, some [⟨⟨0, 10⟩, ⟨0, 0⟩⟩], none⟩ linesC9 6
      (str ("G0 X2 Y5")) ⟨2, 5⟩ (by decide) (by decide) (by decide) (by decide) (by decide)
      (by decide) (by decide) (by decide) (Or.inr (by decide)) (by simp) hxy6
  have step7 : stepLine cfgGyroid
      (⟨.NOTHING, ⟨2, 5⟩, some [⟨⟨0, 10⟩, ⟨0, 0⟩⟩], none⟩, linesC9) 7 =
      .ok (⟨.INFILL, ⟨2, 5⟩, some [⟨⟨0, 10⟩, ⟨0, 0⟩⟩], none⟩, linesC9) :=
    stepLine_fill_marker cfgGyroid ⟨.NOTHING, ⟨2, 5⟩, some [⟨⟨0, 10⟩, ⟨0, 0⟩⟩], none⟩ linesC9 7
      (str (";TYPE:FILL")) (by decide) (by decide) (by decide) (by decide) (by decide) (by decide)
  have step8 : stepLine cfgGyroid
      (⟨.INFILL, ⟨2, 5⟩, some [⟨⟨0, 10⟩, ⟨0, 0⟩⟩], none⟩, linesC9) 8 =
      .ok (⟨.INFILL, ⟨2, 5⟩, some [⟨⟨0, 10⟩, ⟨0, 0⟩⟩], some (str ("G1 F1200\n"))⟩, linesC9) := by
    have h := stepLine_infill_speed cfgGyroid ⟨.INFILL, ⟨2, 5⟩, some [⟨⟨0, 10⟩, ⟨0, 0⟩⟩], none⟩
      linesC9 8 (str ("G1 F1200")) (str ("1200")) (by decide) (by decide) (by decide) (by decide)
      (by decide) (by decide) (by decide) (by decide) (by decide) (by decide) (by decide) rfl
      (by decide)
    rw [h]
    rw [show str ("G1 F") ++ str ("1200") ++ str ("\n") = str ("G1 F1200\n") from by decide]
  have hd : min_distance_from_segment ⟨⟨2, 5⟩, ⟨4, 5⟩⟩ [⟨⟨0, 10⟩, ⟨0, 0⟩⟩] = .ok 3 := by
    show minOverSegments ⟨((2 : ℝ) + 4) / 2, ((5 : ℝ) + 5) / 2⟩ [⟨⟨0, 10⟩, ⟨0, 0⟩⟩] = .ok 3
    rw [show minOverSegments ⟨((2 : ℝ) + 4) / 2, ((5 : ℝ) + 5) / 2⟩ [⟨⟨0, 10⟩, ⟨0, 0⟩⟩] =
      dist ⟨⟨0, 10⟩, ⟨0, 0⟩⟩ ⟨((2 : ℝ) + 4) / 2, ((5 : ℝ) + 5) / 2⟩ from rfl]
    rw [show ((2 : ℝ) + 4) / 2 = 3 from by norm_num,
      show ((5 : ℝ) + 5) / 2 = 5 from by norm_num]
    exact dist_wall_rev 3 5 (by norm_num) (by norm_num) (by norm_num)
  have hlt : ((3 : ℝ) < cfgGyroid.gradient_thickness) = True := by norm_num [cfgGyroid]
  have hsplit : splitChar ' ' (str ("G1 X4 Y5 E1")) =
      [str ("G1"), str ("X4"), str ("Y5")] ++ [str ("E1")] := by decide
  have hr := smallRebuild_split
    (mapRange (0, cfgGyroid.gradient_thickness)
      (cfgGyroid.max_flow / 100, cfgGyroid.min_flow / 100) 3)
    [str ("G1"), str ("X4"), str ("Y5")] (str ("E1")) (str ("G1 F1200\n")) (1, 0)
    (by decide) (by decide) (by decide)
  have hm : decToR (1, 0) * mapRange (0, cfgGyroid.gradient_thickness)
      (cfgGyroid.max_flow / 100, cfgGyroid.min_flow / 100) 3 = 2 := by
    norm_num [decToR, mapRange, cfgGyroid]
  have hps : pyRoundStr (decToR (1, 0) * mapRange (0, cfgGyroid.gradient_thickness)
      (cfgGyroid.max_flow / 100, cfgGyroid.min_flow / 100) 3) 5 = str ("2.0") := by
    unfold pyRoundStr
    rw [hm, pyRound_exact 2 5 200000 (by norm_num)]
    decide
  rw [hps] at hr
  have hsc : smallCase cfgGyroid
      ⟨.INFILL, ⟨2, 5⟩, some [⟨⟨0, 10⟩, ⟨0, 0⟩⟩], some (str ("G1 F1200\n"))⟩
      linesC9 (str ("G1 X4 Y5 E1")) ⟨4, 5⟩ =
      .ok (⟨.INFILL, ⟨2, 5⟩, some [⟨⟨0, 10⟩, ⟨0, 0⟩⟩], some (str ("G1 F1200\n"))⟩,
        linesC9out) := by
    have hset : setByContent linesC9 (str ("G1 X4 Y5 E1"))
        (str ("G1 F1200\nG1 X4 Y5 E2.0\n")) = linesC9out := by decide
    simp only [smallCase, hd, hlt, if_true, hsplit, hr, Bind.bind, Except.bind,
      List.append_assoc]
    rw [show str ("G1 F1200\n") ++ (joinSp [str ("G1"), str ("X4"), str ("Y5")] ++
      (str ("E") ++ (str ("2.0") ++ str ("\n")))) = str ("G1 F1200\nG1 X4 Y5 E2.0\n") from by
      decide]
    rw [hset]
  have h12 : ((1 : ℕ) = 2) = False := by simp
  have hrw : extrusionRewrite cfgGyroid
      ⟨.INFILL, ⟨2, 5⟩, some [⟨⟨0, 10⟩, ⟨0, 0⟩⟩], some (str ("G1 F1200\n"))⟩
      linesC9 (str ("G1 X4 Y5 E1")) =
      .ok (⟨.INFILL, ⟨2, 5⟩, some [⟨⟨0, 10⟩, ⟨0, 0⟩⟩], some (str ("G1 F1200\n"))⟩,
        linesC9out) := by
    simp only [extrusionRewrite, hxy5, cfgGyroid, h12, if_false, if_true, eq_self_iff_true,
      pure, Except.pure, Bind.bind, Except.bind]
    exact hsc
  have step9 : stepLine cfgGyroid
      (⟨.INFILL, ⟨2, 5⟩, some [⟨⟨0, 10⟩, ⟨0, 0⟩⟩], some (str ("G1 F1200\n"))⟩, linesC9) 9 =
      .ok (⟨.INFILL, ⟨4, 5⟩, some [⟨⟨0, 10⟩, ⟨0, 0⟩⟩], some (str ("G1 F1200\n"))⟩,
        linesC9out) :=
    stepLine_infill_extrusion cfgGyroid
      ⟨.INFILL, ⟨2, 5⟩, some [⟨⟨0, 10⟩, ⟨0, 0⟩⟩], some (str ("G1 F1200\n"))⟩ linesC9 9
      (str ("G1 X4 Y5 E1"))
      ⟨.INFILL, ⟨2, 5⟩, some [⟨⟨0, 10⟩, ⟨0, 0⟩⟩], some (str ("G1 F1200\n"))⟩
      linesC9out ⟨4, 5⟩
      (by decide) (by decide) (by decide) (by decide) (by decide) (by decide) (by decide)
      (by decide) (by decide) (by decide) (by decide) (by decide) rfl hrw hxy5
  have hrange : List.range linesC9.length = [0, 1, 2, 3, 4, 5, 6, 7, 8, 9] := by decide
  rw [processLines, hrange, goLines_step _ _ _ _ _ step0, goLines_step _ _ _ _ _ step1,
    goLines_step _ _ _ _ _ step2, goLines_step _ _ _ _ _ step3, goLines_step _ _ _ _ _ step4,
    goLines_step _ _ _ _ _ step5, goLines_step _ _ _ _ _ step6, goLines_step _ _ _ _ _ step7,
    goLines_step _ _ _ _ _ step8, goLines_step _ _ _ _ _ step9]
  rfl


example : pyFloat (str ("0.123456")) = some (123456, 6) := by decide
example : pyFloat (str ("")) = none := by decide
example : pyFloat (str (".")) = none := by decide
example : pyFloat (str ("12.")) = some (12, 0) := by decide
example : getXYq (str ("G1 X4 Y5 E1")) = .ok ((4, 0), (5, 0)) := by decide
example : getXYq (str ("G1 F1200")) = .error .syntaxError := by decide
example : searchNum 'F' (str ("G1 F1200")) = some (str ("1200")) := by decide
example : inStr (" X") (str (";LAYER:0")) = false := by decide
example : inStr ("G1") (str ("G1 X1 Y2 E3")) = true := by decide
example : splitChar ' ' (str ("G1 X4 Y5 E1")) = [str ("G1"), str ("X4"), str ("Y5"), str ("E1")]
    := by decide
example : joinChar '\n' [str ("a"), str ("b")] = str ("a\nb") := by decide
example : fmtScaledNat 200000 5 = str ("2.0") := by decide
example : fmtScaledNat 43210 5 = str ("0.4321") := by decide
example : fmtScaledNat 1500 3 = str ("1.5") := by decide
example : mfill_mode (str ("gyroid")) = 1 := by decide
example : mfill_mode (str ("lines")) = 2 := by decide
example : is_begin_layer_line (str (";LAYER:0")) = true := by decide

end GradientInfill
